import Mathlib

/-!
# Verification of the JTC-2025 registration/payment application

Shallow embedding of the claim-relevant parts of the Django application
`sjis-admin/jtc-2025` (files `registration/models.py`, `registration/views.py`,
`registration/utils.py`), together with theorems settling the frozen claims.

Modelling conventions:
* Database tables are Lean lists of structure rows, in insertion (primary-key)
  order; `Model.objects.get`/`filter` become list lookups.  Django's
  `unique=True` / `unique_together` constraints are modelled as explicit guards
  that fail (raise `IntegrityError`) on a duplicate, mirroring what the
  database enforces.
* Python `Decimal`/`float` amounts are embedded as `ℚ` (exact rationals).
* Python exceptions are `Except String`; `transaction.atomic` blocks that
  abort re-deliver the original database state (rollback).
* `timezone.now()` is an abstract `Nat` tick supplied as a parameter;
  `timedelta(minutes=m)` is addition of `m`.
* Row fields never mentioned by any claim (encrypted contact fields, hashes,
  IP addresses, audit columns, `SecurityAlert`/`PaymentAttempt` rows) are
  elided; `logger` calls and `log_security_alert` calls are modelled as
  entries appended to a `logs` list in the handler result.
-/

namespace JTC

/-! ## Decimal strings (Python `int()`, `str()`, `f"{n:04d}"`, `str.splitic`)

Python renders and parses numbers in decimal.  We embed the decimal rendering
with `Nat.digits 10` and give an exact parser, so that receipt/registration
number round-trips can be proved. -/

/-- Decimal digit to its character (Python rendering of one digit). -/
def toCh (d : Nat) : Char :=
  match d with
  | 0 => '0' | 1 => '1' | 2 => '2' | 3 => '3' | 4 => '4'
  | 5 => '5' | 6 => '6' | 7 => '7' | 8 => '8' | 9 => '9'
  | _ => '?'

/-- Character to decimal digit; `none` on a non-digit (Python `int()` raises). -/
def chVal (c : Char) : Option Nat :=
  if '0' ≤ c ∧ c ≤ '9' then some (c.toNat - Char.toNat '0') else none

/-- Values of a character list; `none` if any character is a non-digit. -/
def chVals : List Char → Option (List Nat)
  | [] => some []
  | c :: cs =>
    match chVal c, chVals cs with
    | some d, some ds => some (d :: ds)
    | _, _ => none

/-- Python `int(s)` on a string of decimal digits (most significant first);
`none` where Python raises `ValueError` (empty string or non-digit). -/
def parseNat (cs : List Char) : Option Nat :=
  if cs = [] then none
  else
    match chVals cs with
    | some ds => some (Nat.ofDigits 10 ds.reverse)
    | none => none

/-- Python `str(n)` for a natural number, as a character list. -/
def natChars (n : Nat) : List Char :=
  if n = 0 then ['0'] else ((Nat.digits 10 n).reverse).map toCh

/-- Python `f"{n:04d}"`: decimal rendering left-padded with zeros to width 4. -/
def pad4 (n : Nat) : List Char :=
  if (natChars n).length < 4 then
    List.replicate (4 - (natChars n).length) '0' ++ natChars n
  else natChars n

/-- Python `s.split(sep)` on character lists (keeps empty fields). -/
def splitOnChar (sep : Char) : List Char → List (List Char)
  | [] => [[]]
  | c :: cs =>
    match splitOnChar sep cs with
    | [] => [[]]
    | h :: t => if c = sep then [] :: h :: t else (c :: h) :: t

theorem chVal_toCh (d : Nat) (hd : d < 10) : chVal (toCh d) = some d := by
  interval_cases d <;> rfl

theorem toCh_ne_dash (d : Nat) : toCh d ≠ '-' := by
  unfold toCh; split <;> decide

theorem chVals_append (xs ys : List Char) :
    chVals (xs ++ ys) =
      match chVals xs, chVals ys with
      | some a, some b => some (a ++ b)
      | _, _ => none := by
  induction xs with
  | nil => cases h : chVals ys <;> simp [chVals, h]
  | cons c cs ih =>
    simp only [List.cons_append, chVals, List.append_eq]
    rw [ih]
    cases hc : chVal c <;> cases h1 : chVals cs <;> cases h2 : chVals ys <;> simp

theorem chVals_map_toCh (ds : List Nat) (h : ∀ d ∈ ds, d < 10) :
    chVals (ds.map toCh) = some ds := by
  induction ds with
  | nil => rfl
  | cons d ds ih =>
    have hd : d < 10 := h d (by simp)
    simp only [List.map_cons, chVals, chVal_toCh d hd,
      ih (fun x hx => h x (by simp [hx]))]

theorem chVals_replicate_zero (k : Nat) :
    chVals (List.replicate k '0') = some (List.replicate k 0) := by
  induction k with
  | zero => rfl
  | succ k ih => simp [List.replicate_succ, chVals, ih, chVal]

theorem ofDigits_replicate_zero (k : Nat) :
    Nat.ofDigits 10 (List.replicate k 0) = 0 := by
  induction k with
  | zero => simp [Nat.ofDigits]
  | succ k ih => simp [List.replicate_succ, Nat.ofDigits, ih]

/-- Parsing inverts rendering, also through zero left-padding:
`int("0…0" ++ str(n)) = n`. -/
theorem parseNat_replicate_natChars (k n : Nat) :
    parseNat (List.replicate k '0' ++ natChars n) = some n := by
  by_cases hn : n = 0
  · subst hn
    have hv : chVals (List.replicate k '0' ++ natChars 0)
        = some (List.replicate k 0 ++ [0]) := by
      rw [chVals_append, chVals_replicate_zero]
      rfl
    have hne : List.replicate k '0' ++ natChars 0 ≠ [] := by simp [natChars]
    simp only [parseNat, if_neg hne]
    rw [hv]
    simp [List.reverse_append, List.reverse_replicate, Nat.ofDigits_cons,
      Nat.ofDigits_nil, ofDigits_replicate_zero]
  · have hdig : ∀ d ∈ (Nat.digits 10 n).reverse, d < 10 := by
      intro d hd
      exact Nat.digits_lt_base (by norm_num) (List.mem_reverse.mp hd)
    have hvals : chVals (List.replicate k '0' ++ natChars n)
        = some (List.replicate k 0 ++ (Nat.digits 10 n).reverse) := by
      rw [natChars, if_neg hn, chVals_append, chVals_replicate_zero,
        chVals_map_toCh _ hdig]
    have hne : List.replicate k '0' ++ natChars n ≠ [] := by
      rw [natChars, if_neg hn]
      simp [Nat.digits_ne_nil_iff_ne_zero.mpr hn]
    simp only [parseNat, if_neg hne]
    rw [hvals]
    simp [List.reverse_append, List.reverse_replicate, Nat.ofDigits_append,
      ofDigits_replicate_zero, Nat.ofDigits_digits]

/-- `int(f"{n:04d}") = n`. -/
theorem parseNat_pad4 (n : Nat) : parseNat (pad4 n) = some n := by
  unfold pad4
  split
  · exact parseNat_replicate_natChars _ n
  · have := parseNat_replicate_natChars 0 n
    simpa using this

theorem natChars_ne_dash (n : Nat) : '-' ∉ natChars n := by
  unfold natChars
  split
  · decide
  · intro hmem
    rcases List.mem_map.mp hmem with ⟨d, _, hd⟩
    exact toCh_ne_dash d hd

theorem pad4_ne_dash (n : Nat) : '-' ∉ pad4 n := by
  unfold pad4
  split
  · intro h
    rcases List.mem_append.mp h with h | h
    · simp_all [List.mem_replicate]
    · exact natChars_ne_dash n h
  · exact natChars_ne_dash n

theorem splitOnChar_no_sep (sep : Char) (cs : List Char) (h : sep ∉ cs) :
    splitOnChar sep cs = [cs] := by
  induction cs with
  | nil => rfl
  | cons c cs ih =>
    have hc : c ≠ sep := fun hh => h (by simp [hh])
    have := ih (fun hh => h (by simp [hh]))
    simp [splitOnChar, this, if_neg hc]

theorem pad4_length (n : Nat) (h : n ≤ 9999) (h0 : 0 < n) :
    (pad4 n).length = 4 := by
  have hlen : (natChars n).length ≤ 4 := by
    rw [natChars, if_neg (Nat.pos_iff_ne_zero.mp h0)]
    simp only [List.length_map, List.length_reverse]
    rw [Nat.digits_len 10 n (by norm_num) (Nat.pos_iff_ne_zero.mp h0)]
    have : Nat.log 10 n < 4 :=
      Nat.log_lt_of_lt_pow (Nat.pos_iff_ne_zero.mp h0) (by omega)
    omega
  rw [pad4]
  split
  · simp only [List.length_append, List.length_replicate]
    omega
  · omega

theorem splitOnChar_middle (sep : Char) (l1 l2 : List Char)
    (h1 : sep ∉ l1) (h2 : sep ∉ l2) :
    splitOnChar sep (l1 ++ sep :: l2) = [l1, l2] := by
  induction l1 with
  | nil => simp [splitOnChar, splitOnChar_no_sep sep l2 h2]
  | cons c cs ih =>
    have hc : c ≠ sep := fun hh => h1 (by simp [hh])
    have h' := ih (fun hh => h1 (by simp [hh]))
    simp only [List.cons_append, splitOnChar, List.append_eq]
    rw [h']
    simp [if_neg hc]

/-! ## Gateway values

A value read out of gateway POST/JSON data (`validation_data.get('amount')`):
either absent (`None`), present but not convertible to a number
(`float`/`Decimal` raise), or a numeric value. -/

inductive GVal where
  | missing
  | nonNumeric
  | num (q : ℚ)
deriving DecidableEq

/-- Python `float(v)`: `none` where `float` raises `TypeError`/`ValueError`. -/
def floatOf : GVal → Option ℚ
  | .num q => some q
  | _ => none

/-- Python `Decimal(v)`: same convertibility domain in this embedding
(`Decimal(None)` raises `TypeError`, `Decimal('garbage')` raises
`InvalidOperation`). -/
def decimalOf : GVal → Option ℚ
  | .num q => some q
  | _ => none

/-! ## Data model (`registration/models.py`)

Rows carry exactly the columns the claims mention; audit/crypto columns are
elided (see header).  `status`/`group` are stored as strings, as in the
database — membership in the declared choices is a property to prove, not a
typing assumption. -/

/-- `Grade` (models.py): `name` elided, `order : PositiveIntegerField`. -/
structure Grade where
  id : Nat
  order : Nat
deriving DecidableEq

/-- `Student` (models.py), claim-relevant columns. -/
structure StudentRow where
  id : Nat
  email : String
  name : String
  gradeId : Option Nat
  group : Option String
  registrationId : String
  totalAmount : ℚ
  isPaid : Bool
  paymentVerified : Bool
deriving DecidableEq

/-- `Payment` (models.py), claim-relevant columns.  `gateway_response`
(a JSON blob) is modelled by the flag `hasGatewayResponse`. -/
structure PaymentRow where
  id : Nat
  studentId : Nat
  transactionId : String
  amount : ℚ
  paymentMethod : String
  status : String
  gatewayTxnid : String
  hasGatewayResponse : Bool
  expiresAt : Option Nat
  completedAt : Option Nat
deriving DecidableEq

/-- `Receipt` (models.py), claim-relevant columns. -/
structure ReceiptRow where
  id : Nat
  studentId : Nat
  paymentId : Nat
  receiptNumber : String
  emailSent : Bool
deriving DecidableEq

/-- `StudentEventRegistration` (models.py). -/
structure RegRow where
  id : Nat
  studentId : Nat
  eventOptionId : Nat
  paymentId : Option Nat
deriving DecidableEq

/-- `EventOption` (models.py), claim-relevant columns. -/
structure EventOptionRow where
  id : Nat
  eventName : String
  eventType : String
  fee : ℚ
  maxTeamSize : Option Nat
deriving DecidableEq

/-- `Team` (models.py): one-to-one with a `StudentEventRegistration`. -/
structure TeamRow where
  id : Nat
  registrationId : Nat
  name : String
deriving DecidableEq

/-- `TeamMember` (models.py). -/
structure TeamMemberRow where
  id : Nat
  teamId : Nat
  name : String
  isLeader : Bool
deriving DecidableEq

/-- The database: each table as a list of rows in primary-key order. -/
structure DB where
  grades : List Grade
  students : List StudentRow
  payments : List PaymentRow
  receipts : List ReceiptRow
  registrations : List RegRow
  teams : List TeamRow
  teamMembers : List TeamMemberRow
deriving DecidableEq

/-- Settings and clock for one request: `timezone.now()`,
`PAYMENT_TIMEOUT_MINUTES` (default 15), the two-digit year used in
registration-id prefixes, and `SSLCOMMERZ_FEE_PERCENTAGE` (default 0.015). -/
structure Cfg where
  now : Nat
  timeoutMinutes : Nat
  yy : String
  feePct : ℚ
deriving DecidableEq

/-! ## `registration/utils.py` -/

/-- utils.py `verify_payment_amount(expected_amount, received_amount,
tolerance=0.01)`; the tolerance argument is passed explicitly here (every
call site uses the default 0.01). -/
def verify_payment_amount (expected_amount received_amount : GVal)
    (tolerance : ℚ) : Bool :=
  match floatOf expected_amount, floatOf received_amount with
  | some expected, some received => decide (|expected - received| ≤ tolerance)
  | _, _ => false

/-- utils.py `generate_secure_transaction_id()`:
`f"JTC2025-{timestamp[-6:]}{random_part}"` where `timestamp` is the decimal
Unix time and `random_part` is 8 random characters (supplied as an input). -/
def generate_secure_transaction_id (timestamp : Nat) (random_part : String) :
    String :=
  let ts := natChars timestamp
  "JTC2025-" ++ String.mk (ts.drop (ts.length - 6)) ++ random_part

/-- utils.py `calculate_group_from_grade(grade)` on an integer input
(`int(grade)` has already succeeded; on failure the function returns `None`,
which the claim's agreement statement does not touch). -/
def calculate_group_from_grade (grade_int : ℤ) : Option String :=
  if 3 ≤ grade_int ∧ grade_int ≤ 4 then some "A"
  else if 5 ≤ grade_int ∧ grade_int ≤ 6 then some "B"
  else if 7 ≤ grade_int ∧ grade_int ≤ 8 then some "C"
  else if 9 ≤ grade_int ∧ grade_int ≤ 12 then some "D"
  else none

/-! ## `Student` model methods -/

/-- models.py `Student.calculate_group_from_grade_id(grade_id)`:
`Grade.objects.get(id=grade_id)` (at most one row matches the primary key),
then the `order`-range chain; `Grade.DoesNotExist` is caught and yields
`None`. -/
def calculate_group_from_grade_id (grades : List Grade) (grade_id : Nat) :
    Option String :=
  match grades.find? (fun g => g.id == grade_id) with
  | none => none
  | some grade =>
    if 3 ≤ grade.order ∧ grade.order ≤ 4 then some "A"
    else if 5 ≤ grade.order ∧ grade.order ≤ 6 then some "B"
    else if 7 ≤ grade.order ∧ grade.order ≤ 8 then some "C"
    else if 9 ≤ grade.order ∧ grade.order ≤ 12 then some "D"
    else none

/-- `order_by('registration_id').last()` over a filtered student list:
the maximum under string order (ties keep the earlier row). -/
def lastByRegistrationId (l : List StudentRow) : Option StudentRow :=
  l.foldl
    (fun acc s =>
      match acc with
      | none => some s
      | some a => if a.registrationId < s.registrationId then some s else some a)
    none

/-- First statement of models.py `Student.save`: `if self.grade: self.group =
self.calculate_group_from_grade_id(self.grade.id)`. -/
def studentSaveGroup (grades : List Grade) (s : StudentRow) : StudentRow :=
  match s.gradeId with
  | some gid => { s with group := calculate_group_from_grade_id grades gid }
  | none => s

/-- models.py `Student.save`: recompute `group` from the grade, then assign
the next sequential `registration_id` when it is empty (prefix
`JTC` + two-digit year, suffix `04d`-padded).  `int()` on a malformed suffix
raises (`Except.error`).  The verification-hash step is elided.  Returns the
row as stored. -/
def studentSave (cfg : Cfg) (grades : List Grade)
    (students : List StudentRow) (s : StudentRow) :
    Except String StudentRow :=
  let s1 := studentSaveGroup grades s
  if s1.registrationId = "" then
    let pfx := "JTC" ++ cfg.yy
    match lastByRegistrationId
        (students.filter (fun t => t.registrationId.startsWith pfx)) with
    | some last =>
      match parseNat (last.registrationId.data.drop pfx.length) with
      | some lastId =>
        .ok { s1 with registrationId := pfx ++ String.mk (pad4 (lastId + 1)) }
      | none => .error "ValueError: invalid registration_id suffix"
    | none => .ok { s1 with registrationId := pfx ++ String.mk (pad4 1) }
  else .ok s1

/-! ## `Payment` model methods -/

/-- First statement of models.py `Payment.save`: set `expires_at` for a
pending payment that has none (`now + PAYMENT_TIMEOUT_MINUTES`). -/
def paymentSaveExpires (cfg : Cfg) (p : PaymentRow) : PaymentRow :=
  if p.expiresAt = none ∧ p.status = "PENDING" then
    { p with expiresAt := some (cfg.now + cfg.timeoutMinutes) }
  else p

/-- Second statement of models.py `Payment.save`: set `completed_at` when the
status is SUCCESS and it is unset. -/
def paymentSaveCompleted (cfg : Cfg) (p : PaymentRow) : PaymentRow :=
  if p.status = "SUCCESS" ∧ p.completedAt = none then
    { p with completedAt := some cfg.now }
  else p

/-- models.py `Payment.save`: the two statements in order. -/
def paymentSave (cfg : Cfg) (p : PaymentRow) : PaymentRow :=
  paymentSaveCompleted cfg (paymentSaveExpires cfg p)

/-- models.py `Payment.is_expired`. -/
def paymentIsExpired (cfg : Cfg) (p : PaymentRow) : Bool :=
  match p.expiresAt with
  | some t => p.status == "PENDING" && decide (t < cfg.now)
  | none => false

/-- models.py `Payment.mark_expired`. -/
def markExpired (cfg : Cfg) (p : PaymentRow) : PaymentRow :=
  if paymentIsExpired cfg p ∧ p.status = "PENDING" then
    paymentSave cfg { p with status := "EXPIRED" }
  else p

/-- The declared `Payment.PAYMENT_STATUS_CHOICES` values. -/
def statusEnum : List String :=
  ["PENDING", "SUCCESS", "FAILED", "CANCELLED", "EXPIRED"]

/-- The declared `Payment.PAYMENT_METHOD_CHOICES` values. -/
def methodEnum : List String :=
  ["BKASH", "ROCKET", "NAGAD", "CARD", "UPAY", "OTHER"]

/-- models.py `Payment` model validation (`full_clean`) restricted to the
declared constraints the claims mention: `MinValueValidator(Decimal('0.01'))`
on `amount`, and the `choices` checks on `status` and on `payment_method`
(which is `blank=True`). -/
def paymentPassesValidation (p : PaymentRow) : Bool :=
  decide ((1 : ℚ)/100 ≤ p.amount) && statusEnum.contains p.status &&
    (p.paymentMethod == "" || methodEnum.contains p.paymentMethod)

/-- models.py `Student` model validation restricted to
`MinValueValidator(Decimal('0.00'))` on `total_amount`. -/
def studentPassesValidation (s : StudentRow) : Bool :=
  decide ((0 : ℚ) ≤ s.totalAmount)

/-! ## `Receipt.save` (models.py) -/

/-- `int(receipt_number.split('-')[1])`: `none` where Python raises
(`IndexError` on a number without `-`, `ValueError` on a non-numeric
suffix). -/
def receiptNumberSuffix (s : String) : Option Nat :=
  match (splitOnChar '-' s.data).get? 1 with
  | some part => parseNat part
  | none => none

/-- models.py `Receipt.save` for a receipt row being created: when
`receipt_number` is empty, lock and read the most recently created receipt
(`order_by('id').last()`; the table is in id order, so this is the last
element) and assign `f"JTC2025-{last_number + 1:04d}"`, or `JTC2025-0001`
when the table is empty.  The `select_for_update` row-lock serialises this
read-increment-write with respect to concurrent saves; in this sequential
embedding the whole function is one atomic step.  Returns the new table and
the stored row. -/
def receiptSave (receipts : List ReceiptRow) (r : ReceiptRow) :
    Except String (List ReceiptRow × ReceiptRow) :=
  if r.receiptNumber = "" then
    match receipts.getLast? with
    | some last_receipt =>
      match receiptNumberSuffix last_receipt.receiptNumber with
      | some last_number =>
        let r2 := { r with
          receiptNumber := "JTC2025-" ++ String.mk (pad4 (last_number + 1)) }
        .ok (receipts ++ [r2], r2)
      | none => .error "ValueError: malformed receipt_number"
    | none =>
      let r2 := { r with receiptNumber := "JTC2025-0001" }
      .ok (receipts ++ [r2], r2)
  else .ok (receipts ++ [r], r)

/-! ## ORM plumbing: lookups, updates, constrained inserts -/

/-- `Payment.objects.get(transaction_id=tid)`: the `unique=True` constraint on
`transaction_id` guarantees at most one match, so the first match is the
match. -/
def findPaymentByTxid (db : DB) (tid : String) : Option PaymentRow :=
  db.payments.find? (fun p => p.transactionId == tid)

/-- `payment.student` (foreign key dereference). -/
def findStudentById (db : DB) (sid : Nat) : Option StudentRow :=
  db.students.find? (fun s => s.id == sid)

/-- Persist a modified payment row (`payment.save()` at table level). -/
def updatePayment (db : DB) (p : PaymentRow) : DB :=
  { db with payments := db.payments.map (fun q => if q.id = p.id then p else q) }

/-- Persist a modified student row. -/
def updateStudent (db : DB) (s : StudentRow) : DB :=
  { db with students := db.students.map (fun t => if t.id = s.id then s else t) }

/-- Persist a modified receipt row. -/
def updateReceipt (db : DB) (r : ReceiptRow) : DB :=
  { db with receipts := db.receipts.map (fun t => if t.id = r.id then r else t) }

/-- Fresh primary key for an insert: one past the maximum id in the table. -/
def nextId (ids : List Nat) : Nat := ids.foldr max 0 + 1

/-- `Receipt.objects.create(student=…, payment=…)`: a new row with empty
`receipt_number`, numbered by `Receipt.save`. -/
def createReceipt (db : DB) (sid pid : Nat) :
    Except String (DB × ReceiptRow) :=
  match receiptSave db.receipts
      { id := nextId (db.receipts.map (fun r => r.id)), studentId := sid,
        paymentId := pid, receiptNumber := "", emailSent := false } with
  | .error e => .error e
  | .ok (receipts, r) => .ok ({ db with receipts := receipts }, r)

/-- `Receipt.objects.get_or_create(student=…, payment=…)`: reuse the matching
row when there is exactly one, create when there is none, raise
(`MultipleObjectsReturned`) otherwise.  The `Bool` is Django's `created`
flag. -/
def getOrCreateReceipt (db : DB) (sid pid : Nat) :
    Except String (DB × ReceiptRow × Bool) :=
  match db.receipts.filter (fun r => r.studentId == sid && r.paymentId == pid) with
  | [] =>
    match createReceipt db sid pid with
    | .error e => .error e
    | .ok (db2, r) => .ok (db2, r, true)
  | [r] => .ok (db, r, false)
  | _ => .error "Receipt.MultipleObjectsReturned"

/-- `Payment.objects.create(...)`: `Payment.save` runs on the new instance and
the database rejects a duplicate `transaction_id` (`IntegrityError`). -/
def createPayment (cfg : Cfg) (db : DB) (p : PaymentRow) :
    Except String (DB × PaymentRow) :=
  if db.payments.any (fun q => q.transactionId == p.transactionId) then
    .error "IntegrityError: duplicate transaction_id"
  else
    let p2 := paymentSave cfg p
    .ok ({ db with payments := db.payments ++ [p2] }, p2)

/-- `StudentEventRegistration.objects.create(...)`: the
`unique_together ['student', 'event_option']` constraint rejects a
duplicate. -/
def createRegistration (db : DB) (sid optId payId : Nat) :
    Except String (DB × RegRow) :=
  if db.registrations.any
      (fun r => r.studentId == sid && r.eventOptionId == optId) then
    .error "IntegrityError: duplicate student event registration"
  else
    let r : RegRow := { id := nextId (db.registrations.map (fun r => r.id)),
                        studentId := sid, eventOptionId := optId,
                        paymentId := some payId }
    .ok ({ db with registrations := db.registrations ++ [r] }, r)

/-- `Team.objects.create(name=…, registration=reg)`: the one-to-one field
rejects a second team for the same registration. -/
def createTeam (db : DB) (regId : Nat) (name : String) :
    Except String (DB × TeamRow) :=
  if db.teams.any (fun t => t.registrationId == regId) then
    .error "IntegrityError: duplicate team for registration"
  else
    let t : TeamRow := { id := nextId (db.teams.map (fun t => t.id)),
                         registrationId := regId, name := name }
    .ok ({ db with teams := db.teams ++ [t] }, t)

/-- `TeamMember.objects.create(team=…, name=…, is_leader=…)`. -/
def createTeamMember (db : DB) (teamId : Nat) (name : String)
    (isLeader : Bool) : DB :=
  { db with teamMembers := db.teamMembers ++
      [{ id := nextId (db.teamMembers.map (fun m => m.id)), teamId := teamId,
         name := name, isLeader := isLeader }] }

/-! ## Gateway validation data and HTTP responses -/

/-- The fields of an SSLCommerz Validation-API response that the handlers
read.  `validate_ipn` performs the one outbound HTTP call; its outcome
(`is_valid` and the parsed body) is an input of the embedded handlers. -/
structure VData where
  status : String
  riskLevel : String
  valId : String
  cardType : String
  amount : GVal
deriving DecidableEq

/-- A view outcome: a 200 response (rendered page or `HttpResponse('OK')`),
an `HttpResponseBadRequest` (400), or an uncaught exception (Django turns it
into a 500 server error). -/
inductive Resp where
  | ok
  | bad (msg : String)
  | err (msg : String)
deriving DecidableEq

/-- Result of a handler: the database afterwards, the response, and the
`logger`/`log_security_alert` entries emitted. -/
structure HRes where
  db : DB
  resp : Resp
  logs : List String
deriving DecidableEq

/-! ## `payment_success` (views.py) -/

/-- The crediting block of `payment_success` (inside `transaction.atomic()`):
mark the payment successful, set the student's flags, create the receipt and
send the confirmation email (`send_registration_email` catches its own
exceptions; `emailOk` says whether it got as far as marking the receipt
sent). -/
def creditPaymentOnSuccess (cfg : Cfg) (db : DB) (p : PaymentRow) (v : VData)
    (emailOk : Bool) : Except String DB :=
  let p2 := paymentSave cfg { p with
    status := "SUCCESS", paymentMethod := v.cardType, gatewayTxnid := v.valId,
    hasGatewayResponse := true, completedAt := some cfg.now }
  let db1 := updatePayment db p2
  match findStudentById db1 p.studentId with
  | none => .error "Student.DoesNotExist"
  | some student =>
    match studentSave cfg db1.grades db1.students
        { student with isPaid := true, paymentVerified := true } with
    | .error e => .error e
    | .ok student1 =>
      let db2 := updateStudent db1 student1
      match createReceipt db2 student1.id p2.id with
      | .error e => .error e
      | .ok (db3, receipt) =>
        if emailOk then
          .ok (updateReceipt db3 { receipt with emailSent := true })
        else
          .ok db3

/-- views.py `payment_success`: the gateway's success callback.  `tran_id` is
read from POST; `is_valid`/`v` are the outcome of
`SSLCOMMERZ().validate_ipn`.  An exception inside `transaction.atomic()`
rolls the database back and propagates (500). -/
def payment_success (cfg : Cfg) (db : DB) (tran_id : Option String)
    (is_valid : Bool) (v : VData) (emailOk : Bool) : HRes :=
  match tran_id with
  | none => ⟨db, .bad "Invalid request: Missing transaction ID.", []⟩
  | some tid =>
    match findPaymentByTxid db tid with
    | none => ⟨db, .bad "Invalid Transaction.",
        ["Payment success callback for non-existent transaction"]⟩
    | some payment =>
      if payment.status = "SUCCESS" then
        -- already processed: `Receipt.objects.get(payment=payment)` and render
        match db.receipts.filter (fun r => r.paymentId == payment.id) with
        | [_] => ⟨db, .ok, []⟩
        | [] => ⟨db, .err "Receipt.DoesNotExist", []⟩
        | _ => ⟨db, .err "Receipt.MultipleObjectsReturned", []⟩
      else
        if is_valid ∧ (v.status = "VALID" ∨ v.status = "VALIDATED") then
          match decimalOf v.amount with
          | none => ⟨db, .err "Decimal conversion failed", []⟩
          | some amt =>
            if payment.amount = amt then
              match creditPaymentOnSuccess cfg db payment v emailOk with
              | .ok db2 => ⟨db2, .ok, []⟩
              | .error e => ⟨db, .err e, []⟩
            else
              let p2 := paymentSave cfg { payment with status := "FAILED" }
              ⟨updatePayment db p2,
                .bad "Payment validation failed: Amount mismatch.",
                ["Payment validation failed: Amount mismatch."]⟩
        else
          let p2 := paymentSave cfg { payment with status := "FAILED" }
          ⟨updatePayment db p2, .bad "Payment validation failed.",
            ["Payment validation failed: Invalid data from SSLCommerz."]⟩

/-! ## `payment_ipn` (views.py) -/

/-- Step 5 of `payment_ipn` (inside `transaction.atomic()`): act on the
validated status and risk level.  Returns the new database and the log
entries of the step. -/
def ipnProcess (cfg : Cfg) (db : DB) (p : PaymentRow) (v : VData)
    (emailOk : Bool) : Except String (DB × List String) :=
  if v.status = "VALID" then
    if v.riskLevel = "0" then
      let p2 := paymentSave cfg { p with
        status := "SUCCESS", gatewayTxnid := v.valId,
        hasGatewayResponse := true, completedAt := some cfg.now }
      let db1 := updatePayment db p2
      match findStudentById db1 p.studentId with
      | none => .error "Student.DoesNotExist"
      | some student =>
        match studentSave cfg db1.grades db1.students
            { student with isPaid := true, paymentVerified := true } with
        | .error e => .error e
        | .ok student1 =>
          let db2 := updateStudent db1 student1
          match getOrCreateReceipt db2 student1.id p2.id with
          | .error e => .error e
          | .ok (db3, receipt, _) =>
            if ¬ receipt.emailSent ∧ emailOk then
              .ok (updateReceipt db3 { receipt with emailSent := true },
                ["payment updated to SUCCESS via IPN"])
            else
              .ok (db3, ["payment updated to SUCCESS via IPN"])
    else
      let p2 := paymentSave cfg { p with hasGatewayResponse := true }
      .ok (updatePayment db p2,
        ["security_alert: HIGH_RISK_TRANSACTION", "flagged for manual review"])
  else
    if v.status = "FAILED" ∨ v.status = "CANCELLED" ∨ v.status = "EXPIRED" then
      let p2 := paymentSave cfg { p with status := v.status,
                                         hasGatewayResponse := true }
      .ok (updatePayment db p2, ["payment status updated via IPN"])
    else
      .ok (db, ["IPN received with unhandled status"])

/-- views.py `payment_ipn`: the asynchronous gateway notification.  The whole
body runs under `try/except`, so an internal exception rolls back
`transaction.atomic()` and yields `HttpResponseBadRequest('Processing
error')` rather than a 500. -/
def payment_ipn (cfg : Cfg) (db : DB) (tran_id : Option String)
    (is_valid : Bool) (v : VData) (emailOk : Bool) : HRes :=
  match tran_id with
  | none => ⟨db, .bad "Transaction ID missing.",
      ["IPN received without a transaction ID."]⟩
  | some tid =>
    if ¬ is_valid then
      ⟨db, .bad "Invalid IPN",
        ["security_alert: INVALID_HASH", "IPN validation failed"]⟩
    else
      match findPaymentByTxid db tid with
      | none => ⟨db, .bad "Transaction not found",
          ["security_alert: PAYMENT_FRAUD",
           "IPN received for non-existent tran_id"]⟩
      | some payment =>
        if payment.status = "SUCCESS" then
          ⟨db, .ok, ["IPN for already successful payment received. Skipping."]⟩
        else
          if ¬ verify_payment_amount (.num payment.amount) v.amount (1/100) then
            ⟨db, .bad "Amount mismatch",
              ["security_alert: PAYMENT_FRAUD", "IPN amount mismatch"]⟩
          else
            match ipnProcess cfg db payment v emailOk with
            | .ok (db2, logs) => ⟨db2, .ok, logs⟩
            | .error e => ⟨db, .bad "Processing error",
                ["security_alert: IPN_ERROR", "IPN processing error: " ++ e]⟩

/-! ## `student_registration` (views.py) -/

/-- A validated `StudentRegistrationForm` plus the raw POST fields the view
reads directly.  `teamNames`, `teamLeaders` and `teamMemberNames` model
`request.POST.get(f'team_name_{option.id}', '')`,
`…get(f'team_leader_{option.id}', '0')` and
`…get(f'team_member_{option.id}_{i}', '')`. -/
structure RegForm where
  email : String
  name : String
  gradeId : Option Nat
  selectedOptions : List EventOptionRow
  teamNames : List (Nat × String)
  teamLeaders : List (Nat × String)
  teamMemberNames : List ((Nat × Nat) × String)
deriving DecidableEq

/-- `request.POST.get(key, default)` over an association list. -/
def postGet (l : List (Nat × String)) (k : Nat) (dflt : String) : String :=
  match l.find? (fun e => e.1 == k) with
  | some e => e.2
  | none => dflt

/-- `request.POST.get(f'team_member_{option.id}_{i}', '')`. -/
def postGet2 (l : List ((Nat × Nat) × String)) (k : Nat × Nat) : String :=
  match l.find? (fun e => e.1 == k) with
  | some e => e.2
  | none => ""

/-- `Student.objects.update_or_create(email=…, defaults={…})`: look the
student up by email (`get` raises on more than one match), apply the
defaults or build a new row, run `Student.save`, persist. -/
def updateOrCreateStudent (cfg : Cfg) (db : DB) (form : RegForm) :
    Except String (DB × StudentRow) :=
  match db.students.filter (fun s => s.email == form.email) with
  | [] =>
    match studentSave cfg db.grades db.students
        { id := nextId (db.students.map (fun s => s.id)), email := form.email,
          name := form.name, gradeId := form.gradeId, group := none,
          registrationId := "", totalAmount := 0, isPaid := false,
          paymentVerified := false } with
    | .error e => .error e
    | .ok stored => .ok ({ db with students := db.students ++ [stored] }, stored)
  | [s] =>
    match studentSave cfg db.grades db.students
        { s with name := form.name, gradeId := form.gradeId } with
    | .error e => .error e
    | .ok stored => .ok (updateStudent db stored, stored)
  | _ => .error "Student.MultipleObjectsReturned"

/-- The inner loop `for i in range(1, option.max_team_size or 2)`: create a
`TeamMember` for every non-empty posted member name. -/
def addTeamMembers (form : RegForm) (optId : Nat) (leaderIdx : String)
    (teamId : Nat) (db : DB) : List Nat → DB
  | [] => db
  | i :: rest =>
    let member_name := (postGet2 form.teamMemberNames (optId, i)).trim
    let db2 :=
      if member_name = "" then db
      else createTeamMember db teamId member_name (leaderIdx == toString i)
    addTeamMembers form optId leaderIdx teamId db2 rest

/-- The team-creation block for one TEAM option (views.py lines 153-166): a
missing team name raises `ValueError`; otherwise the `Team`, its leader
member and the posted members are created. -/
def handleTeamOption (form : RegForm) (student : StudentRow)
    (option : EventOptionRow) (db1 : DB) (regId : Nat) :
    Except String DB :=
  if (postGet form.teamNames option.id "").trim = "" then
    .error ("ValueError: Team name is required for " ++ option.eventName)
  else
    match createTeam db1 regId ((postGet form.teamNames option.id "").trim) with
    | .error e => .error e
    | .ok (db2, team) =>
      let leader_index := postGet form.teamLeaders option.id "0"
      let db3 := createTeamMember db2 team.id student.name
        (leader_index == "0")
      .ok (addTeamMembers form option.id leader_index team.id db3
        (List.range' 1 (option.maxTeamSize.getD 2 - 1)))

/-- Step 3 of `student_registration`: for each selected option create the
`StudentEventRegistration` and, for a team option, run the team block. -/
def registerOptionsList (form : RegForm) (student : StudentRow)
    (payment : PaymentRow) (db : DB) :
    List EventOptionRow → Except String DB
  | [] => .ok db
  | option :: rest =>
    match createRegistration db student.id option.id payment.id with
    | .error e => .error e
    | .ok (db1, reg) =>
      if option.eventType = "TEAM" then
        match handleTeamOption form student option db1 reg.id with
        | .error e => .error e
        | .ok db2 => registerOptionsList form student payment db2 rest
      else registerOptionsList form student payment db1 rest

/-- views.py `student_registration` fee computation:
`fee = (subtotal * fee_percentage).quantize(Decimal('0.01'))`.  `quantize`
rounds to cents with `ROUND_HALF_EVEN` (banker's rounding, the `Decimal`
default). -/
def roundHalfEven (x : ℚ) : ℤ :=
  let f : ℤ := ⌊x⌋
  let r : ℚ := x - (f : ℚ)
  if r < 1/2 then f
  else if 1/2 < r then f + 1
  else if f % 2 = 0 then f else f + 1

/-- Round a rational to cents (`quantize(Decimal('0.01'))`). -/
def quantizeCents (x : ℚ) : ℚ := (roundHalfEven (100 * x) : ℚ) / 100

/-- Outcome of `student_registration` on a POST with a valid form. -/
inductive RegResp where
  | redirectGateway (paymentId : Nat)
  | redirectRegister
  | renderRegisterError (msg : String)
deriving DecidableEq

/-- The body of the `transaction.atomic()` block of `student_registration`.
`newTxid` is the value of `generate_secure_transaction_id()` for this
request. -/
def regBody (cfg : Cfg) (db : DB) (form : RegForm) (newTxid : String) :
    Except String (DB × RegResp) :=
  match updateOrCreateStudent cfg db form with
  | .error e => .error e
  | .ok (db1, student) =>
    let subtotal := (form.selectedOptions.map (fun o => o.fee)).sum
    let fee := quantizeCents (subtotal * cfg.feePct)
    let total_amount := subtotal + fee
    if total_amount ≤ 0 then
      -- `messages.error(...); return redirect('register')` commits the student
      .ok (db1, .redirectRegister)
    else
      match createPayment cfg db1
          { id := nextId (db1.payments.map (fun p => p.id)),
            studentId := student.id, transactionId := newTxid,
            amount := total_amount, paymentMethod := "", status := "PENDING",
            gatewayTxnid := "", hasGatewayResponse := false, expiresAt := none,
            completedAt := none } with
      | .error e => .error e
      | .ok (db2, payment) =>
        -- the redundant `payment.save()` right after `objects.create`
        let db3 := updatePayment db2 (paymentSave cfg payment)
        match registerOptionsList form student payment db3
            form.selectedOptions with
        | .error e => .error e
        | .ok db4 => .ok (db4, .redirectGateway payment.id)

/-- views.py `student_registration` for a POST whose form validated: run the
atomic block; any exception rolls everything back and renders the
registration page with a user-facing error message. -/
def student_registration (cfg : Cfg) (db : DB) (form : RegForm)
    (newTxid : String) : DB × RegResp :=
  match regBody cfg db form newTxid with
  | .ok (db2, resp) => (db2, resp)
  | .error e => (db, .renderRegisterError ("An unexpected error occurred: " ++ e))

/-! ## Other operations that write a payment status (for the enum-closure
claim), each translated from its named source location. -/

/-- views.py `payment_fail` lines 618-627: `payment.status = 'FAILED';
payment.gateway_response = {...}; payment.save()`. -/
def paymentFailUpdate (cfg : Cfg) (p : PaymentRow) : PaymentRow :=
  paymentSave cfg { p with status := "FAILED", hasGatewayResponse := true }

/-- views.py `payment_cancel` lines 682-690: `payment.status = 'CANCELLED';
…; payment.save()`. -/
def paymentCancelUpdate (cfg : Cfg) (p : PaymentRow) : PaymentRow :=
  paymentSave cfg { p with status := "CANCELLED", hasGatewayResponse := true }

/-- views.py `handle_payment_timeout` lines 720-724: `payment.status =
'EXPIRED'; …; payment.save()`. -/
def paymentTimeoutUpdate (cfg : Cfg) (p : PaymentRow) : PaymentRow :=
  paymentSave cfg { p with status := "EXPIRED", hasGatewayResponse := true }

/-- views.py `check_payment_status` lines 764-768 and `cleanup_expired_payments`
lines 812-814; admin_views.py `verify_payment` line 560: the remaining
`payment.status = …; payment.save()` sites. -/
def checkPaymentStatusUpdate (cfg : Cfg) (p : PaymentRow) : PaymentRow :=
  paymentSave cfg { p with status := "SUCCESS", hasGatewayResponse := true,
                           completedAt := some cfg.now }

/-- views.py `cleanup_expired_payments` lines 812-814. -/
def cleanupExpiredUpdate (cfg : Cfg) (p : PaymentRow) : PaymentRow :=
  paymentSave cfg { p with status := "EXPIRED" }

/-- admin_views.py `verify_payment` lines 559-563. -/
def adminVerifyPaymentUpdate (cfg : Cfg) (p : PaymentRow) : PaymentRow :=
  paymentSave cfg { p with status := "SUCCESS" }

/-! ## Invariants referenced by the claims -/

/-- Receipt-table well-formedness: every stored `receipt_number` has a
parseable numeric suffix and the suffixes strictly increase in creation
order.  The empty table is well-formed, and `Receipt.save` is the only code
that assigns numbers. -/
def receiptsWF (l : List ReceiptRow) : Prop :=
  ∃ ns : List Nat,
    l.map (fun r => receiptNumberSuffix r.receiptNumber) = ns.map some ∧
      ns.Chain' (· < ·)

/-- Claim C5's invariant: all transaction ids are pairwise distinct. -/
def txUnique (l : List PaymentRow) : Prop :=
  l.Pairwise (fun a b => a.transactionId ≠ b.transactionId)

/-- Primary keys of the payment table are pairwise distinct (guaranteed by
the database; needed to reason about row updates). -/
def payIdsUnique (l : List PaymentRow) : Prop :=
  l.Pairwise (fun a b => a.id ≠ b.id)

/-- Every payment status lies in the declared `PAYMENT_STATUS_CHOICES`. -/
def okStatuses (l : List PaymentRow) : Prop :=
  ∀ p ∈ l, p.status ∈ statusEnum

/-- A student row as `Student.save` leaves it: non-empty `registration_id`
and a `group` consistent with its grade, so that a further save only writes
the fields the caller changed. -/
def studentConsistent (grades : List Grade) (s : StudentRow) : Prop :=
  s.registrationId ≠ "" ∧
    match s.gradeId with
    | some gid => s.group = calculate_group_from_grade_id grades gid
    | none => True

/-- An HTTP 400 (`HttpResponseBadRequest`). -/
def is400 (r : Resp) : Prop := ∃ m, r = .bad m

/-- No payment is newly marked SUCCESS: any SUCCESS row of the new table was
already SUCCESS at the same position of the old table. -/
def noNewSuccess (old new : List PaymentRow) : Prop :=
  ∀ i p2, new.get? i = some p2 → p2.status = "SUCCESS" →
    ∃ p1, old.get? i = some p1 ∧ p1.status = "SUCCESS"

/-! # Theorems -/

/-! ## Basic facts about `Payment.save` -/

theorem paymentSaveExpires_status (cfg : Cfg) (p : PaymentRow) :
    (paymentSaveExpires cfg p).status = p.status := by
  unfold paymentSaveExpires
  split <;> rfl

theorem paymentSaveCompleted_status (cfg : Cfg) (p : PaymentRow) :
    (paymentSaveCompleted cfg p).status = p.status := by
  unfold paymentSaveCompleted
  split <;> rfl

theorem paymentSave_status (cfg : Cfg) (p : PaymentRow) :
    (paymentSave cfg p).status = p.status := by
  rw [paymentSave, paymentSaveCompleted_status, paymentSaveExpires_status]

theorem paymentSave_id (cfg : Cfg) (p : PaymentRow) :
    (paymentSave cfg p).id = p.id := by
  rw [paymentSave, paymentSaveCompleted, paymentSaveExpires]
  split <;> split <;> rfl

theorem paymentSave_transactionId (cfg : Cfg) (p : PaymentRow) :
    (paymentSave cfg p).transactionId = p.transactionId := by
  rw [paymentSave, paymentSaveCompleted, paymentSaveExpires]
  split <;> split <;> rfl

theorem paymentSave_expiresAt_pending (cfg : Cfg) (p : PaymentRow)
    (hs : p.status = "PENDING") (he : p.expiresAt = none) :
    (paymentSave cfg p).expiresAt = some (cfg.now + cfg.timeoutMinutes) := by
  rw [paymentSave, paymentSaveExpires, if_pos ⟨he, hs⟩, paymentSaveCompleted]
  rw [if_neg (by simp [hs])]

theorem paymentSave_expiresAt_set (cfg : Cfg) (p : PaymentRow) (e : Nat)
    (he : p.expiresAt = some e) : (paymentSave cfg p).expiresAt = some e := by
  rw [paymentSave, paymentSaveExpires, if_neg (by simp [he]),
    paymentSaveCompleted]
  split <;> simp [he]

theorem paymentSave_completedAt_success (cfg : Cfg) (p : PaymentRow)
    (hs : p.status = "SUCCESS") : (paymentSave cfg p).completedAt ≠ none := by
  rw [paymentSave, paymentSaveExpires, if_neg (by simp [hs]),
    paymentSaveCompleted]
  split <;> simp_all

theorem paymentSave_completedAt_set (cfg : Cfg) (p : PaymentRow) (c : Nat)
    (hc : p.completedAt = some c) :
    (paymentSave cfg p).completedAt = some c := by
  rw [paymentSave, paymentSaveExpires, paymentSaveCompleted]
  split
  · rw [if_neg (by simp [hc])]
    exact hc
  · rw [if_neg (by simp [hc])]
    exact hc

theorem markExpired_eq (cfg : Cfg) (p : PaymentRow) :
    markExpired cfg p =
      if p.status = "PENDING" ∧ ∃ e, p.expiresAt = some e ∧ e < cfg.now then
        { p with status := "EXPIRED" }
      else p := by
  rw [markExpired, paymentIsExpired]
  rcases he : p.expiresAt with _ | e
  · simp
  · by_cases hs : p.status = "PENDING" <;> by_cases hlt : e < cfg.now <;>
      simp [hs, hlt, paymentSave, paymentSaveExpires, paymentSaveCompleted]

/-! ## Claim C9 -/

/-- C9: after every `Payment.save`, a payment saved with status PENDING and
no prior `expires_at` gets `expires_at = now + PAYMENT_TIMEOUT_MINUTES`; a
payment saved with status SUCCESS has a non-null `completed_at`; neither
field, once set, is cleared by a later save; and `mark_expired` moves a
payment to EXPIRED exactly when its status is PENDING and the current time is
past `expires_at`, leaving every other payment unchanged. -/
theorem C9_payment_save_timestamps :
    (∀ cfg p, p.status = "PENDING" → p.expiresAt = none →
      (paymentSave cfg p).expiresAt = some (cfg.now + cfg.timeoutMinutes)) ∧
    (∀ cfg p, p.status = "SUCCESS" → (paymentSave cfg p).completedAt ≠ none) ∧
    (∀ cfg p e, p.expiresAt = some e →
      (paymentSave cfg p).expiresAt = some e) ∧
    (∀ cfg p c, p.completedAt = some c →
      (paymentSave cfg p).completedAt = some c) ∧
    (∀ cfg p,
      markExpired cfg p =
        if p.status = "PENDING" ∧ ∃ e, p.expiresAt = some e ∧ e < cfg.now then
          { p with status := "EXPIRED" }
        else p) :=
  ⟨fun cfg p hs he => paymentSave_expiresAt_pending cfg p hs he,
   fun cfg p hs => paymentSave_completedAt_success cfg p hs,
   fun cfg p e he => paymentSave_expiresAt_set cfg p e he,
   fun cfg p c hc => paymentSave_completedAt_set cfg p c hc,
   fun cfg p => markExpired_eq cfg p⟩

/-- Witness for C9 at concrete payments. -/
theorem C9_payment_save_timestamps_witness :
    (paymentSave ⟨1000, 15, "25", 3/200⟩
      ⟨1, 1, "t1", 100, "", "PENDING", "", false, none, none⟩).expiresAt
        = some 1015 ∧
    (paymentSave ⟨1000, 15, "25", 3/200⟩
      ⟨1, 1, "t1", 100, "", "SUCCESS", "", false, none, none⟩).completedAt
        ≠ none ∧
    (paymentSave ⟨1000, 15, "25", 3/200⟩
      ⟨1, 1, "t1", 100, "", "FAILED", "", false, some 500, none⟩).expiresAt
        = some 500 ∧
    (paymentSave ⟨1000, 15, "25", 3/200⟩
      ⟨1, 1, "t1", 100, "", "SUCCESS", "", false, some 500, some 900⟩).completedAt
        = some 900 ∧
    markExpired ⟨1000, 15, "25", 3/200⟩
      ⟨1, 1, "t1", 100, "", "PENDING", "", false, some 500, none⟩
        = ⟨1, 1, "t1", 100, "", "EXPIRED", "", false, some 500, none⟩ := by
  obtain ⟨h1, h2, h3, h4, h5⟩ := C9_payment_save_timestamps
  refine ⟨h1 _ _ rfl rfl, h2 _ _ rfl, h3 _ _ 500 rfl, h4 _ _ 900 rfl, ?_⟩
  rw [h5]
  rw [if_pos ⟨rfl, 500, rfl, by decide⟩]

/-! ## Claim C10 -/

/-- C10: `calculate_group_from_grade_id` returns A for a grade whose order is
3-4, B for 5-6, C for 7-8, D for 9-12, and `None` for any other order or for
a grade id matching no `Grade`; it never raises (it is a total function in
this embedding), and `utils.calculate_group_from_grade` agrees with it on the
grade's integer order. -/
theorem C10_group_from_grade (grades : List Grade) (grade_id : Nat) :
    (∀ g, grades.find? (fun g2 => g2.id == grade_id) = some g →
      ((3 ≤ g.order ∧ g.order ≤ 4 →
          calculate_group_from_grade_id grades grade_id = some "A") ∧
       (5 ≤ g.order ∧ g.order ≤ 6 →
          calculate_group_from_grade_id grades grade_id = some "B") ∧
       (7 ≤ g.order ∧ g.order ≤ 8 →
          calculate_group_from_grade_id grades grade_id = some "C") ∧
       (9 ≤ g.order ∧ g.order ≤ 12 →
          calculate_group_from_grade_id grades grade_id = some "D") ∧
       (g.order < 3 ∨ 12 < g.order →
          calculate_group_from_grade_id grades grade_id = none) ∧
       calculate_group_from_grade_id grades grade_id =
         calculate_group_from_grade (g.order : ℤ))) ∧
    (grades.find? (fun g2 => g2.id == grade_id) = none →
      calculate_group_from_grade_id grades grade_id = none) := by
  constructor
  · intro g hg
    have hmain : calculate_group_from_grade_id grades grade_id =
        calculate_group_from_grade (g.order : ℤ) := by
      simp only [calculate_group_from_grade_id, hg, calculate_group_from_grade]
      split_ifs <;> first | rfl | omega
    refine ⟨?_, ?_, ?_, ?_, ?_, hmain⟩ <;> intro h <;>
      rw [hmain, calculate_group_from_grade] <;>
      split_ifs <;> first | rfl | omega
  · intro h
    simp only [calculate_group_from_grade_id, h]

/-- Witness for C10: a grade of order 3 is in group A; an unknown grade id
yields no group. -/
theorem C10_group_from_grade_witness :
    calculate_group_from_grade_id [⟨1, 3⟩] 1 = some "A" ∧
    calculate_group_from_grade_id [⟨1, 3⟩] 2 = none ∧
    calculate_group_from_grade_id [⟨1, 3⟩] 1 =
      calculate_group_from_grade ((3 : Nat) : ℤ) := by
  obtain ⟨ha, -, -, -, -, heq⟩ :=
    (C10_group_from_grade [⟨1, 3⟩] 1).1 ⟨1, 3⟩ rfl
  exact ⟨ha ⟨by decide, by decide⟩, (C10_group_from_grade [⟨1, 3⟩] 2).2 rfl,
    heq⟩

/-! ## Claim C8 -/

/-- C8: `verify_payment_amount(expected, received)` returns True iff both
arguments convert to numbers and their absolute difference is at most the
0.01 tolerance; it returns False (it is total, never raising) when either
argument is `None` or non-numeric; and consequently the IPN handler rejects
with `Amount mismatch` exactly when this tolerance check fails, so it
accepts a gateway-reported amount differing from the stored amount by up to
0.01. -/
theorem C8_verify_payment_amount :
    (∀ e r : GVal, verify_payment_amount e r (1/100) = true ↔
      ∃ a b, floatOf e = some a ∧ floatOf r = some b ∧ |a - b| ≤ 1/100) ∧
    (∀ e r : GVal, floatOf e = none ∨ floatOf r = none →
      verify_payment_amount e r (1/100) = false) ∧
    (∀ cfg db tid p v emailOk, findPaymentByTxid db tid = some p →
      p.status ≠ "SUCCESS" →
      ((payment_ipn cfg db (some tid) true v emailOk).resp =
          .bad "Amount mismatch" ↔
        verify_payment_amount (.num p.amount) v.amount (1/100) = false)) := by
  refine ⟨?_, ?_, ?_⟩
  · intro e r
    cases he : floatOf e <;> cases hr : floatOf r <;>
      simp [verify_payment_amount, he, hr]
  · intro e r h
    rcases h with h | h <;> simp [verify_payment_amount, h]
  · intro cfg db tid p v emailOk hfind hs
    simp only [payment_ipn, Bool.not_true, hfind]
    rw [if_neg (by simp)]
    rw [if_neg hs]
    cases hb : verify_payment_amount (.num p.amount) v.amount (1/100)
    · simp
    · rw [if_neg (by simp [hb])]
      rcases hip : ipnProcess cfg db p v emailOk with e | ⟨db2, logs⟩ <;>
        simp [hip]

/-- Witness for C8: tolerance accepts an 0.01 discrepancy, a missing gateway
amount is rejected without an exception, and a concrete IPN with an 0.01
discrepancy is not answered with `Amount mismatch`. -/
theorem C8_verify_payment_amount_witness :
    verify_payment_amount (.num 100) (.num (100 + 1/100)) (1/100) = true ∧
    verify_payment_amount (.num 100) .missing (1/100) = false ∧
    (payment_ipn ⟨1000, 15, "25", 3/200⟩
        ⟨[], [⟨1, "a@b.c", "Alice", none, none, "JTC250001", 100, false,
              false⟩],
         [⟨1, 1, "t1", 100, "", "PENDING", "", false, some 2000, none⟩],
         [], [], [], []⟩
        (some "t1") true ⟨"VALID", "0", "v1", "VISA", .num (100 + 1/100)⟩
        true).resp ≠ .bad "Amount mismatch" := by
  obtain ⟨h1, h2, h3⟩ := C8_verify_payment_amount
  refine ⟨(h1 _ _).mpr ⟨100, 100 + 1/100, rfl, rfl, by norm_num [abs_le]⟩,
    h2 _ _ (Or.inr rfl), ?_⟩
  intro hresp
  have hiff := h3 ⟨1000, 15, "25", 3/200⟩
    ⟨[], [⟨1, "a@b.c", "Alice", none, none, "JTC250001", 100, false, false⟩],
     [⟨1, 1, "t1", 100, "", "PENDING", "", false, some 2000, none⟩],
     [], [], [], []⟩ "t1"
    ⟨1, 1, "t1", 100, "", "PENDING", "", false, some 2000, none⟩
    ⟨"VALID", "0", "v1", "VISA", .num (100 + 1/100)⟩ true rfl (by decide)
  have hfalse := hiff.mp hresp
  rw [show verify_payment_amount (.num 100)
      (GVal.num (100 + 1/100)) (1/100) = true from by
    simp only [verify_payment_amount, floatOf, decide_eq_true_eq]
    norm_num [abs_le]] at hfalse
  cases hfalse

/-! ## Claim C3: receipt numbering -/

theorem receiptNumberSuffix_assigned (m : Nat) :
    receiptNumberSuffix ("JTC2025-" ++ String.mk (pad4 m)) = some m := by
  have hdata : ("JTC2025-" ++ String.mk (pad4 m)).data
      = ['J', 'T', 'C', '2', '0', '2', '5'] ++ '-' :: pad4 m := by
    rw [String.data_append]
    rfl
  simp only [receiptNumberSuffix, hdata]
  rw [splitOnChar_middle '-' ['J', 'T', 'C', '2', '0', '2', '5'] (pad4 m)
    (by decide) (pad4_ne_dash m)]
  simp [parseNat_pad4]

theorem receiptNumberSuffix_0001 :
    receiptNumberSuffix "JTC2025-0001" = some 1 := by decide

theorem receiptsWF_nil : receiptsWF [] := ⟨[], rfl, List.chain'_nil⟩

theorem receiptsWF_getLast_suffix (l : List ReceiptRow) (hwf : receiptsWF l)
    (last : ReceiptRow) (hl : l.getLast? = some last) :
    ∃ n, receiptNumberSuffix last.receiptNumber = some n := by
  obtain ⟨ns, hmap, -⟩ := hwf
  have h1 := congrArg List.getLast? hmap
  rw [List.getLast?_map, List.getLast?_map, hl] at h1
  cases hn : ns.getLast? with
  | none => rw [hn] at h1; simp at h1
  | some k =>
    rw [hn] at h1
    simp at h1
    exact ⟨k, h1⟩

theorem receiptsWF_snoc (l : List ReceiptRow) (r2 : ReceiptRow) (k : Nat)
    (hwf : receiptsWF l) (hk : receiptNumberSuffix r2.receiptNumber = some k)
    (hgt : ∀ last m, l.getLast? = some last →
      receiptNumberSuffix last.receiptNumber = some m → m < k) :
    receiptsWF (l ++ [r2]) := by
  obtain ⟨ns, hmap, hchain⟩ := hwf
  refine ⟨ns ++ [k], ?_, ?_⟩
  · rw [List.map_append, List.map_append, hmap]
    simp [hk]
  · rw [List.chain'_append]
    refine ⟨hchain, List.chain'_singleton _, ?_⟩
    intro x hx y hy
    rw [Option.mem_def] at hx
    simp only [List.head?_cons, Option.mem_def, Option.some.injEq] at hy
    subst hy
    have h1 := congrArg List.getLast? hmap
    rw [List.getLast?_map, List.getLast?_map, hx] at h1
    cases hl : l.getLast? with
    | none => rw [hl] at h1; simp at h1
    | some last =>
      rw [hl] at h1
      simp at h1
      exact hgt last x hl h1

theorem receiptsWF_distinct (l : List ReceiptRow) (hwf : receiptsWF l) :
    l.Pairwise (fun a b => a.receiptNumber ≠ b.receiptNumber) := by
  obtain ⟨ns, hmap, hchain⟩ := hwf
  have hp : ns.Pairwise (· < ·) := List.chain'_iff_pairwise.mp hchain
  have hps : (ns.map some).Pairwise (fun a b : Option Nat => a ≠ b) :=
    hp.map _ (fun a b hab => by simp only [ne_eq, Option.some.injEq]; omega)
  rw [← hmap] at hps
  have hl := List.pairwise_map.mp hps
  exact hl.imp (fun hne heq => hne (by rw [heq]))

/-- C3: when a `Receipt` is saved with an empty `receipt_number`, the save
assigns `JTC2025-0001` on an empty table, and otherwise `JTC2025-` followed
by the zero-padded successor of the most recently created receipt's numeric
suffix (4 digits whenever the successor is at most 9999); the assignment is
one atomic step (the `select_for_update` row-lock serialises it), preserves
table well-formedness, and the stored receipt numbers remain pairwise
distinct. -/
theorem C3_receipt_numbering (receipts : List ReceiptRow) (r : ReceiptRow)
    (hwf : receiptsWF receipts) (hempty : r.receiptNumber = "") :
    (receipts = [] →
      receiptSave receipts r =
        .ok ([{ r with receiptNumber := "JTC2025-0001" }],
             { r with receiptNumber := "JTC2025-0001" })) ∧
    (∀ last n, receipts.getLast? = some last →
      receiptNumberSuffix last.receiptNumber = some n →
      receiptSave receipts r =
        .ok (receipts ++
          [{ r with receiptNumber := "JTC2025-" ++ String.mk (pad4 (n+1)) }],
          { r with receiptNumber := "JTC2025-" ++ String.mk (pad4 (n+1)) }) ∧
      (n + 1 ≤ 9999 → (pad4 (n+1)).length = 4)) ∧
    (∀ receipts2 r2, receiptSave receipts r = .ok (receipts2, r2) →
      receiptsWF receipts2 ∧
      receipts2.Pairwise (fun a b => a.receiptNumber ≠ b.receiptNumber)) := by
  refine ⟨?_, ?_, ?_⟩
  · intro h
    subst h
    simp [receiptSave, hempty]
  · intro last n hlast hn
    constructor
    · simp only [receiptSave, if_pos hempty, hlast, hn]
    · intro hle
      exact pad4_length (n+1) hle (Nat.succ_pos n)
  · intro receipts2 r2 hok
    cases hlast : receipts.getLast? with
    | none =>
      have hnil : receipts = [] := List.getLast?_eq_none_iff.mp hlast
      subst hnil
      simp only [receiptSave, if_pos hempty, List.getLast?_nil,
        List.nil_append, Except.ok.injEq, Prod.mk.injEq] at hok
      obtain ⟨h2, h3⟩ := hok
      subst h2
      have hwf2 : receiptsWF [{ r with receiptNumber := "JTC2025-0001" }] := by
        have := receiptsWF_snoc [] { r with receiptNumber := "JTC2025-0001" } 1
          receiptsWF_nil (by simpa using receiptNumberSuffix_0001)
          (by intro last m h _; simp at h)
        simpa using this
      exact ⟨hwf2, receiptsWF_distinct _ hwf2⟩
    | some last =>
      obtain ⟨n, hn⟩ := receiptsWF_getLast_suffix receipts hwf last hlast
      simp only [receiptSave, if_pos hempty, hlast, hn, Except.ok.injEq,
        Prod.mk.injEq] at hok
      obtain ⟨h2, h3⟩ := hok
      subst h2
      have hwf2 : receiptsWF (receipts ++
          [{ r with receiptNumber := "JTC2025-" ++ String.mk (pad4 (n+1)) }]) := by
        refine receiptsWF_snoc receipts _ (n+1) hwf
          (by simpa using receiptNumberSuffix_assigned (n+1)) ?_
        intro last2 m hlast2 hm
        rw [hlast] at hlast2
        injection hlast2 with hl2
        subst hl2
        rw [hn] at hm
        injection hm with hm2
        omega
      exact ⟨hwf2, receiptsWF_distinct _ hwf2⟩

/-- Witness for C3: with one stored receipt `JTC2025-0001`, saving an
unnumbered receipt assigns `JTC2025-0002` and keeps the numbers distinct. -/
theorem C3_receipt_numbering_witness :
    receiptSave [⟨1, 1, 1, "JTC2025-0001", false⟩] ⟨2, 2, 2, "", false⟩ =
      .ok ([⟨1, 1, 1, "JTC2025-0001", false⟩,
            ⟨2, 2, 2, "JTC2025-0002", false⟩],
           ⟨2, 2, 2, "JTC2025-0002", false⟩) ∧
    (pad4 2).length = 4 := by
  have hwf : receiptsWF [⟨1, 1, 1, "JTC2025-0001", false⟩] := by
    refine ⟨[1], ?_, List.chain'_singleton _⟩
    simp [receiptNumberSuffix_0001]
  have h := (C3_receipt_numbering [⟨1, 1, 1, "JTC2025-0001", false⟩]
    ⟨2, 2, 2, "", false⟩ hwf rfl).2.1 ⟨1, 1, 1, "JTC2025-0001", false⟩ 1
    rfl receiptNumberSuffix_0001
  have hpad : "JTC2025-" ++ String.mk (pad4 (1 + 1)) = "JTC2025-0002" := by
    rw [show pad4 (1 + 1) = ['0', '0', '0', '2'] from by
      norm_num [pad4, natChars, toCh, List.replicate]]
    rfl
  rw [hpad] at h
  exact ⟨h.1, h.2 (by norm_num)⟩

/-! ## Frame lemmas: which tables each ORM operation can touch -/

theorem updatePayment_students (db : DB) (p : PaymentRow) :
    (updatePayment db p).students = db.students := rfl

theorem updateStudent_payments (db : DB) (s : StudentRow) :
    (updateStudent db s).payments = db.payments := rfl

theorem createReceipt_frame (db : DB) (sid pid : Nat) (db2 : DB)
    (r : ReceiptRow) (h : createReceipt db sid pid = .ok (db2, r)) :
    db2.payments = db.payments ∧ db2.students = db.students ∧
      db2.registrations = db.registrations ∧ db2.teams = db.teams ∧
      db2.teamMembers = db.teamMembers ∧ db2.grades = db.grades := by
  unfold createReceipt at h
  split at h
  · cases h
  · injection h with h1
    injection h1 with ha hb
    subst ha
    exact ⟨rfl, rfl, rfl, rfl, rfl, rfl⟩

theorem getOrCreateReceipt_frame (db : DB) (sid pid : Nat) (db2 : DB)
    (r : ReceiptRow) (created : Bool)
    (h : getOrCreateReceipt db sid pid = .ok (db2, r, created)) :
    db2.payments = db.payments ∧ db2.students = db.students ∧
      db2.registrations = db.registrations ∧ db2.teams = db.teams ∧
      db2.teamMembers = db.teamMembers ∧ db2.grades = db.grades := by
  unfold getOrCreateReceipt at h
  split at h
  · split at h
    · cases h
    · rename_i db3 r3 hc
      injection h with h1
      injection h1 with ha hb
      subst ha
      exact createReceipt_frame db sid pid _ _ hc
  · injection h with h1
    injection h1 with ha hb
    subst ha
    exact ⟨rfl, rfl, rfl, rfl, rfl, rfl⟩
  · cases h

theorem creditPaymentOnSuccess_frame (cfg : Cfg) (db : DB) (p : PaymentRow)
    (v : VData) (emailOk : Bool) (db2 : DB)
    (h : creditPaymentOnSuccess cfg db p v emailOk = .ok db2) :
    db2.payments = (updatePayment db (paymentSave cfg { p with
      status := "SUCCESS", paymentMethod := v.cardType,
      gatewayTxnid := v.valId, hasGatewayResponse := true,
      completedAt := some cfg.now })).payments ∧
    db2.registrations = db.registrations ∧ db2.teams = db.teams ∧
      db2.teamMembers = db.teamMembers ∧ db2.grades = db.grades := by
  simp only [creditPaymentOnSuccess] at h
  split at h
  · cases h
  · split at h
    · cases h
    · split at h
      · cases h
      · rename_i db3 pr hcr
        obtain ⟨hp, hs, hreg, ht, htm, hg⟩ :=
          createReceipt_frame _ _ _ db3 pr hcr
        split at h
        · injection h with h1
          subst h1
          exact ⟨hp, hreg, ht, htm, hg⟩
        · injection h with h1
          subst h1
          exact ⟨hp, hreg, ht, htm, hg⟩

theorem ipnProcess_payments (cfg : Cfg) (db : DB) (p : PaymentRow) (v : VData)
    (emailOk : Bool) (db2 : DB) (logs : List String)
    (h : ipnProcess cfg db p v emailOk = .ok (db2, logs)) :
    db2.payments = db.payments ∨
    ∃ q, q.id = p.id ∧ q.transactionId = p.transactionId ∧
      (q.status ∈ statusEnum ∨ q.status = p.status) ∧
      db2.payments = (updatePayment db q).payments := by
  simp only [ipnProcess] at h
  split at h
  · split at h
    · -- VALID, risk level 0
      split at h
      · cases h
      · split at h
        · cases h
        · split at h
          · cases h
          · rename_i db3 receipt created hgc
            obtain ⟨hp3, -, -, -, -, -⟩ :=
              getOrCreateReceipt_frame _ _ _ db3 receipt created hgc
            refine Or.inr ⟨paymentSave cfg
              { p with
                status := "SUCCESS", gatewayTxnid := v.valId,
                hasGatewayResponse := true, completedAt := some cfg.now },
              paymentSave_id _ _,
              paymentSave_transactionId _ _, Or.inl ?_, ?_⟩
            · rw [paymentSave_status]
              simp [statusEnum]
            · split at h <;>
              · injection h with h1
                injection h1 with ha hb
                subst ha
                exact hp3
    · -- VALID, high risk
      injection h with h1
      injection h1 with ha hb
      subst ha
      refine Or.inr ⟨paymentSave cfg
        { p with hasGatewayResponse := true },
        paymentSave_id _ _, paymentSave_transactionId _ _, Or.inr ?_, rfl⟩
      rw [paymentSave_status]
  · split at h
    · -- FAILED / CANCELLED / EXPIRED
      rename_i hv
      injection h with h1
      injection h1 with ha hb
      subst ha
      refine Or.inr ⟨paymentSave cfg
        { p with status := v.status, hasGatewayResponse := true },
        paymentSave_id _ _,
        paymentSave_transactionId _ _, Or.inl ?_, rfl⟩
      rw [paymentSave_status]
      rcases hv with hv | hv | hv <;> simp [hv, statusEnum]
    · -- unhandled status
      injection h with h1
      injection h1 with ha hb
      subst ha
      exact Or.inl rfl

/-! ## Transaction-id uniqueness machinery (claim C5) -/

theorem le_foldr_max (ids : List Nat) : ∀ x ∈ ids, x ≤ ids.foldr max 0 := by
  induction ids with
  | nil => intro x hx; cases hx
  | cons a as ih =>
    intro x hx
    rcases List.mem_cons.mp hx with rfl | hx2
    · simp only [List.foldr_cons]
      exact le_max_left _ _
    · simp only [List.foldr_cons]
      exact (ih x hx2).trans (le_max_right _ _)

theorem nextId_fresh (ids : List Nat) (x : Nat) (hx : x ∈ ids) :
    x ≠ nextId ids := by
  have := le_foldr_max ids x hx
  rw [nextId]
  omega

theorem payIdsUnique_eq (l : List PaymentRow) (h : payIdsUnique l)
    (p q : PaymentRow) (hp : p ∈ l) (hq : q ∈ l) (heq : q.id = p.id) :
    q = p := by
  revert h hp hq
  induction l with
  | nil => intro h hp hq; cases hp
  | cons a as ih =>
    intro h hp hq
    rw [payIdsUnique, List.pairwise_cons] at h
    obtain ⟨hhead, htail⟩ := h
    rcases List.mem_cons.mp hp with rfl | hp2 <;>
      rcases List.mem_cons.mp hq with rfl | hq2
    · rfl
    · exact absurd heq.symm (hhead q hq2)
    · exact absurd heq (hhead p hp2)
    · exact ih htail hp2 hq2

theorem map_txid_update (l : List PaymentRow) (q : PaymentRow)
    (h : ∀ x ∈ l, x.id = q.id → x.transactionId = q.transactionId) :
    ((l.map (fun x => if x.id = q.id then q else x)).map
        (fun x => x.transactionId)) =
      l.map (fun x => x.transactionId) := by
  induction l with
  | nil => rfl
  | cons a as ih =>
    simp only [List.map_cons]
    rw [ih (fun x hx hid => h x (List.mem_cons_of_mem a hx) hid)]
    congr 1
    split
    · rename_i ha
      exact (h a (List.mem_cons_self a as) ha).symm
    · rfl

theorem txUnique_of_map_eq (l1 l2 : List PaymentRow)
    (hmap : l2.map (fun x => x.transactionId) =
      l1.map (fun x => x.transactionId))
    (h : txUnique l1) : txUnique l2 := by
  have h1 : (l1.map (fun x => x.transactionId)).Pairwise (· ≠ ·) :=
    List.pairwise_map.mpr h
  rw [← hmap] at h1
  exact List.pairwise_map.mp h1

theorem findPaymentByTxid_mem (db : DB) (tid : String) (p : PaymentRow)
    (h : findPaymentByTxid db tid = some p) : p ∈ db.payments :=
  List.mem_of_find?_eq_some h

theorem payment_success_txids (cfg : Cfg) (db : DB) (tran_id : Option String)
    (is_valid : Bool) (v : VData) (emailOk : Bool)
    (hids : payIdsUnique db.payments) :
    (payment_success cfg db tran_id is_valid v emailOk).db.payments.map
        (fun x => x.transactionId) =
      db.payments.map (fun x => x.transactionId) := by
  cases tran_id with
  | none => rfl
  | some tid =>
    cases hf : findPaymentByTxid db tid with
    | none => simp [payment_success, hf]
    | some p =>
      simp only [payment_success, hf]
      have hmem : p ∈ db.payments := findPaymentByTxid_mem db tid p hf
      have hqp : ∀ (q2 : PaymentRow), q2.id = p.id →
          q2.transactionId = p.transactionId →
          ∀ x ∈ db.payments, x.id = q2.id → x.transactionId =
            q2.transactionId := by
        intro q2 hqid hqtx x hx hxid
        rw [hqtx, payIdsUnique_eq db.payments hids p x hmem hx (by omega)]
      by_cases hsucc : p.status = "SUCCESS"
      · rw [if_pos hsucc]
        split <;> rfl
      · rw [if_neg hsucc]
        by_cases hv : is_valid ∧ (v.status = "VALID" ∨ v.status = "VALIDATED")
        · rw [if_pos hv]
          split
          · rfl
          · split
            · split
              · rename_i amt hd heq db2 hc
                obtain ⟨hp, -, -, -, -⟩ :=
                  creditPaymentOnSuccess_frame cfg db p v emailOk db2 hc
                show List.map (fun x => x.transactionId) db2.payments = _
                rw [hp]
                exact map_txid_update _ _
                  (hqp _ (paymentSave_id _ _) (paymentSave_transactionId _ _))
              · rfl
            · exact map_txid_update _ _
                (hqp _ (paymentSave_id _ _) (paymentSave_transactionId _ _))
        · rw [if_neg hv]
          exact map_txid_update _ _
            (hqp _ (paymentSave_id _ _) (paymentSave_transactionId _ _))

theorem payment_ipn_txids (cfg : Cfg) (db : DB) (tran_id : Option String)
    (is_valid : Bool) (v : VData) (emailOk : Bool)
    (hids : payIdsUnique db.payments) :
    (payment_ipn cfg db tran_id is_valid v emailOk).db.payments.map
        (fun x => x.transactionId) =
      db.payments.map (fun x => x.transactionId) := by
  cases tran_id with
  | none => rfl
  | some tid =>
    by_cases hvalid : is_valid
    · cases hf : findPaymentByTxid db tid with
      | none => simp [payment_ipn, hf, hvalid]
      | some p =>
        simp only [payment_ipn, hf]
        rw [if_neg (by simp [hvalid])]
        have hmem : p ∈ db.payments := findPaymentByTxid_mem db tid p hf
        by_cases hsucc : p.status = "SUCCESS"
        · rw [if_pos hsucc]
        · rw [if_neg hsucc]
          by_cases hamt :
              verify_payment_amount (.num p.amount) v.amount (1/100) = true
          · rw [if_neg (fun hn => hn hamt)]
            split
            · rename_i db2 logs hip
              rcases ipnProcess_payments cfg db p v emailOk db2 logs hip
                  with hsame | ⟨q, hqid, hqtx, -, hpay⟩
              · show List.map (fun x => x.transactionId) db2.payments = _
                rw [hsame]
              · show List.map (fun x => x.transactionId) db2.payments = _
                rw [hpay]
                refine map_txid_update _ _ ?_
                intro x hx hxid
                rw [hqtx,
                  payIdsUnique_eq db.payments hids p x hmem hx (by omega)]
            · rfl
          · rw [if_pos hamt]
    · simp [payment_ipn, hvalid]

/-! ## Frame lemmas for the registration flow -/

theorem createTeam_frame (db : DB) (regId : Nat) (name : String) (db2 : DB)
    (team : TeamRow) (h : createTeam db regId name = .ok (db2, team)) :
    db2.payments = db.payments ∧ db2.students = db.students ∧
      db2.receipts = db.receipts ∧ db2.registrations = db.registrations ∧
      db2.grades = db.grades := by
  unfold createTeam at h
  split at h
  · cases h
  · injection h with h1
    injection h1 with ha hb
    subst ha
    exact ⟨rfl, rfl, rfl, rfl, rfl⟩

theorem createRegistration_frame (db : DB) (sid oid pid : Nat) (db2 : DB)
    (r : RegRow) (h : createRegistration db sid oid pid = .ok (db2, r)) :
    db2.payments = db.payments ∧ db2.students = db.students ∧
      db2.receipts = db.receipts ∧ db2.teams = db.teams ∧
      db2.teamMembers = db.teamMembers ∧ db2.grades = db.grades := by
  unfold createRegistration at h
  split at h
  · cases h
  · injection h with h1
    injection h1 with ha hb
    subst ha
    exact ⟨rfl, rfl, rfl, rfl, rfl, rfl⟩

theorem addTeamMembers_frame (form : RegForm) (optId : Nat) (li : String)
    (tid : Nat) : ∀ (l : List Nat) (db : DB),
    (addTeamMembers form optId li tid db l).payments = db.payments ∧
    (addTeamMembers form optId li tid db l).students = db.students ∧
    (addTeamMembers form optId li tid db l).receipts = db.receipts ∧
    (addTeamMembers form optId li tid db l).registrations =
      db.registrations ∧
    (addTeamMembers form optId li tid db l).teams = db.teams ∧
    (addTeamMembers form optId li tid db l).grades = db.grades := by
  intro l
  induction l with
  | nil => intro db; exact ⟨rfl, rfl, rfl, rfl, rfl, rfl⟩
  | cons i rest ih =>
    intro db
    simp only [addTeamMembers]
    by_cases hm : (postGet2 form.teamMemberNames (optId, i)).trim = ""
    · rw [if_pos hm]
      exact ih db
    · rw [if_neg hm]
      exact ih _

theorem handleTeamOption_frame (form : RegForm) (student : StudentRow)
    (option : EventOptionRow) (db1 : DB) (regId : Nat) (db2 : DB)
    (h : handleTeamOption form student option db1 regId = .ok db2) :
    db2.payments = db1.payments ∧ db2.students = db1.students ∧
      db2.receipts = db1.receipts ∧ db2.registrations = db1.registrations ∧
      db2.grades = db1.grades := by
  simp only [handleTeamOption] at h
  split at h
  · cases h
  · split at h
    · cases h
    · rename_i db3 team hct
      injection h with h1
      subst h1
      obtain ⟨hp, hs, hr, hreg, hg⟩ := createTeam_frame _ _ _ db3 team hct
      obtain ⟨hap, has, har, hareg, hat, hag⟩ := addTeamMembers_frame form
        option.id (postGet form.teamLeaders option.id "0") team.id
        (List.range' 1 (option.maxTeamSize.getD 2 - 1))
        (createTeamMember db3 team.id student.name
          (postGet form.teamLeaders option.id "0" == "0"))
      exact ⟨hap.trans hp, has.trans hs, har.trans hr, hareg.trans hreg,
        hag.trans hg⟩

theorem registerOptionsList_frame (form : RegForm) (student : StudentRow)
    (payment : PaymentRow) : ∀ (opts : List EventOptionRow) (db db4 : DB),
    registerOptionsList form student payment db opts = .ok db4 →
    db4.payments = db.payments ∧ db4.students = db.students ∧
      db4.receipts = db.receipts ∧ db4.grades = db.grades := by
  intro opts
  induction opts with
  | nil =>
    intro db db4 h
    injection h with h1
    subst h1
    exact ⟨rfl, rfl, rfl, rfl⟩
  | cons option rest ih =>
    intro db db4 h
    simp only [registerOptionsList] at h
    split at h
    · cases h
    · rename_i db1 reg hcr
      obtain ⟨hp1, hs1, hr1, ht1, htm1, hg1⟩ :=
        createRegistration_frame _ _ _ _ db1 reg hcr
      split at h
      · split at h
        · cases h
        · rename_i db2 hht
          obtain ⟨hp2, hs2, hr2, hreg2, hg2⟩ :=
            handleTeamOption_frame _ _ _ _ _ db2 hht
          obtain ⟨hp3, hs3, hr3, hg3⟩ := ih db2 db4 h
          exact ⟨hp3.trans (hp2.trans hp1), hs3.trans (hs2.trans hs1),
            hr3.trans (hr2.trans hr1), hg3.trans (hg2.trans hg1)⟩
      · obtain ⟨hp3, hs3, hr3, hg3⟩ := ih db1 db4 h
        exact ⟨hp3.trans hp1, hs3.trans hs1, hr3.trans hr1, hg3.trans hg1⟩

theorem updateOrCreateStudent_frame (cfg : Cfg) (db : DB) (form : RegForm)
    (db1 : DB) (st : StudentRow)
    (h : updateOrCreateStudent cfg db form = .ok (db1, st)) :
    db1.payments = db.payments ∧ db1.receipts = db.receipts ∧
      db1.registrations = db.registrations ∧ db1.teams = db.teams ∧
      db1.teamMembers = db.teamMembers ∧ db1.grades = db.grades := by
  unfold updateOrCreateStudent at h
  split at h
  · split at h
    · cases h
    · injection h with h1
      injection h1 with ha hb
      subst ha
      exact ⟨rfl, rfl, rfl, rfl, rfl, rfl⟩
  · split at h
    · cases h
    · injection h with h1
      injection h1 with ha hb
      subst ha
      exact ⟨rfl, rfl, rfl, rfl, rfl, rfl⟩
  · cases h

theorem createPayment_ok (cfg : Cfg) (db : DB) (p : PaymentRow) (db2 : DB)
    (p2 : PaymentRow) (h : createPayment cfg db p = .ok (db2, p2)) :
    db2 = { db with payments := db.payments ++ [paymentSave cfg p] } ∧
      p2 = paymentSave cfg p ∧
      ∀ x ∈ db.payments, x.transactionId ≠ p.transactionId := by
  unfold createPayment at h
  split at h
  · cases h
  · rename_i hany
    injection h with h1
    injection h1 with ha hb
    refine ⟨ha.symm, hb.symm, ?_⟩
    intro x hx
    simp only [List.any_eq_true, beq_iff_eq, not_exists, not_and] at hany
    exact fun hc => hany x hx hc

theorem createPayment_txUnique (cfg : Cfg) (db : DB) (p : PaymentRow)
    (db2 : DB) (p2 : PaymentRow) (hu : txUnique db.payments)
    (h : createPayment cfg db p = .ok (db2, p2)) : txUnique db2.payments := by
  obtain ⟨hdb, -, hfresh⟩ := createPayment_ok cfg db p db2 p2 h
  subst hdb
  show (db.payments ++ [paymentSave cfg p]).Pairwise _
  rw [List.pairwise_append]
  refine ⟨hu, List.pairwise_singleton _ _, ?_⟩
  intro a ha b hb
  simp only [List.mem_singleton] at hb
  subst hb
  rw [paymentSave_transactionId]
  exact hfresh a ha

theorem regBody_txUnique (cfg : Cfg) (db : DB) (form : RegForm)
    (newTxid : String) (db2 : DB) (resp : RegResp)
    (h : regBody cfg db form newTxid = .ok (db2, resp))
    (hu : txUnique db.payments) : txUnique db2.payments := by
  simp only [regBody] at h
  split at h
  · cases h
  · rename_i db1 student huoc
    obtain ⟨hp1, -, -, -, -, -⟩ :=
      updateOrCreateStudent_frame cfg db form db1 student huoc
    split at h
    · injection h with h1
      injection h1 with ha hb
      subst ha
      rw [txUnique, hp1]
      exact hu
    · split at h
      · cases h
      · rename_i db2' payment hcp
        have hu1 : txUnique db1.payments := by rw [txUnique, hp1]; exact hu
        have hu2 : txUnique db2'.payments :=
          createPayment_txUnique cfg db1 _ db2' payment hu1 hcp
        obtain ⟨hdb2, hpay, -⟩ := createPayment_ok cfg db1 _ db2' payment hcp
        split at h
        · cases h
        · rename_i db4 hro
          injection h with h1
          injection h1 with ha hb
          subst ha
          obtain ⟨hp4, -, -, -⟩ :=
            registerOptionsList_frame form student payment
              form.selectedOptions _ db4 hro
          refine txUnique_of_map_eq db2'.payments db4.payments ?_ hu2
          rw [hp4]
          refine map_txid_update _ _ ?_
          intro x hx hxid
          rw [hdb2] at hx
          rcases List.mem_append.mp hx with hx1 | hx2
          · exfalso
            rw [paymentSave_id, hpay, paymentSave_id] at hxid
            exact nextId_fresh (db1.payments.map (fun p => p.id)) x.id
              (List.mem_map_of_mem _ hx1) hxid
          · simp only [List.mem_singleton] at hx2
            subst hx2
            rw [paymentSave_transactionId, paymentSave_transactionId, hpay,
              paymentSave_transactionId]

/-- C5: transaction ids are pairwise distinct, and the invariant is preserved
by every modelled operation that creates or updates a payment: the
registration flow creates each payment with an id of the form `JTC2025-` plus
timestamp/random suffix, the unique constraint rejects a duplicate on
creation, and the callback/IPN handlers never alter a stored
`transaction_id`. -/
theorem C5_transaction_ids :
    (∀ timestamp random_part, ∃ s,
      generate_secure_transaction_id timestamp random_part =
        "JTC2025-" ++ s) ∧
    (∀ cfg db p db2 p2, txUnique db.payments →
      createPayment cfg db p = .ok (db2, p2) → txUnique db2.payments) ∧
    (∀ cfg db tran_id is_valid v emailOk,
      payIdsUnique db.payments → txUnique db.payments →
      txUnique
        (payment_success cfg db tran_id is_valid v emailOk).db.payments) ∧
    (∀ cfg db tran_id is_valid v emailOk,
      payIdsUnique db.payments → txUnique db.payments →
      txUnique (payment_ipn cfg db tran_id is_valid v emailOk).db.payments) ∧
    (∀ cfg db form newTxid, txUnique db.payments →
      txUnique (student_registration cfg db form newTxid).1.payments) := by
  refine ⟨?_, ?_, ?_, ?_, ?_⟩
  · intro timestamp random_part
    refine ⟨String.mk ((natChars timestamp).drop
      ((natChars timestamp).length - 6)) ++ random_part, ?_⟩
    simp only [generate_secure_transaction_id]
    rw [String.append_assoc]
  · intro cfg db p db2 p2 hu h
    exact createPayment_txUnique cfg db p db2 p2 hu h
  · intro cfg db tran_id is_valid v emailOk hids hu
    exact txUnique_of_map_eq db.payments _
      (payment_success_txids cfg db tran_id is_valid v emailOk hids) hu
  · intro cfg db tran_id is_valid v emailOk hids hu
    exact txUnique_of_map_eq db.payments _
      (payment_ipn_txids cfg db tran_id is_valid v emailOk hids) hu
  · intro cfg db form newTxid hu
    unfold student_registration
    cases hb : regBody cfg db form newTxid with
    | error e => exact hu
    | ok pr =>
      show txUnique pr.1.payments
      exact regBody_txUnique cfg db form newTxid pr.1 pr.2 (by rw [hb]) hu

/-- Witness for C5 at a concrete database with one stored payment. -/
theorem C5_transaction_ids_witness :
    (∃ s, generate_secure_transaction_id 1234567890 "AB12CD34" =
      "JTC2025-" ++ s) ∧
    txUnique [⟨1, 1, "t1", 100, "", "PENDING", "", false, some 2000, none⟩,
              ⟨2, 1, "t2", 50, "", "PENDING", "", false, some 1015, none⟩] ∧
    txUnique (payment_success ⟨1000, 15, "25", 3/200⟩
      ⟨[], [⟨1, "a@b.c", "Alice", none, none, "JTC250001", 100, false, false⟩],
       [⟨1, 1, "t1", 100, "", "PENDING", "", false, some 2000, none⟩],
       [], [], [], []⟩
      (some "t1") true ⟨"VALID", "0", "v1", "VISA", .num 100⟩
      true).db.payments ∧
    txUnique (payment_ipn ⟨1000, 15, "25", 3/200⟩
      ⟨[], [⟨1, "a@b.c", "Alice", none, none, "JTC250001", 100, false, false⟩],
       [⟨1, 1, "t1", 100, "", "PENDING", "", false, some 2000, none⟩],
       [], [], [], []⟩
      (some "t1") false ⟨"VALID", "0", "v1", "VISA", .num 100⟩
      true).db.payments := by
  obtain ⟨h1, h2, h3, h4, -⟩ := C5_transaction_ids
  refine ⟨h1 1234567890 "AB12CD34", ?_,
    h3 _ _ _ _ _ _ (by unfold payIdsUnique; decide) (by unfold txUnique; decide),
    h4 _ _ _ _ _ _ (by unfold payIdsUnique; decide) (by unfold txUnique; decide)⟩
  exact h2 ⟨1000, 15, "25", 3/200⟩
    ⟨[], [⟨1, "a@b.c", "Alice", none, none, "JTC250001", 100, false, false⟩],
     [⟨1, 1, "t1", 100, "", "PENDING", "", false, some 2000, none⟩],
     [], [], [], []⟩
    ⟨2, 1, "t2", 50, "", "PENDING", "", false, none, none⟩
    ⟨[], [⟨1, "a@b.c", "Alice", none, none, "JTC250001", 100, false, false⟩],
     [⟨1, 1, "t1", 100, "", "PENDING", "", false, some 2000, none⟩,
      ⟨2, 1, "t2", 50, "", "PENDING", "", false, some 1015, none⟩],
     [], [], [], []⟩
    ⟨2, 1, "t2", 50, "", "PENDING", "", false, some 1015, none⟩
    (by unfold txUnique; decide) rfl

/-! ## Claim C7: amount validators and status-enum closure -/

theorem okStatuses_update (l : List PaymentRow) (q : PaymentRow)
    (h : okStatuses l) (hq : q.status ∈ statusEnum) :
    okStatuses (l.map (fun x => if x.id = q.id then q else x)) := by
  intro x hx
  rcases List.mem_map.mp hx with ⟨y, hy, hxy⟩
  subst hxy
  split
  · exact hq
  · exact h y hy

theorem payment_success_statuses (cfg : Cfg) (db : DB)
    (tran_id : Option String) (is_valid : Bool) (v : VData) (emailOk : Bool)
    (h : okStatuses db.payments) :
    okStatuses
      (payment_success cfg db tran_id is_valid v emailOk).db.payments := by
  cases tran_id with
  | none => exact h
  | some tid =>
    cases hf : findPaymentByTxid db tid with
    | none => simpa [payment_success, hf] using h
    | some p =>
      simp only [payment_success, hf]
      by_cases hsucc : p.status = "SUCCESS"
      · rw [if_pos hsucc]
        split <;> exact h
      · rw [if_neg hsucc]
        by_cases hv : is_valid ∧ (v.status = "VALID" ∨ v.status = "VALIDATED")
        · rw [if_pos hv]
          split
          · exact h
          · split
            · split
              · rename_i amt hd heq db2 hc
                obtain ⟨hp, -, -, -, -⟩ :=
                  creditPaymentOnSuccess_frame cfg db p v emailOk db2 hc
                show okStatuses db2.payments
                rw [okStatuses, hp]
                exact okStatuses_update _ _ h
                  (by rw [paymentSave_status]; simp [statusEnum])
              · exact h
            · exact okStatuses_update _ _ h
                (by rw [paymentSave_status]; simp [statusEnum])
        · rw [if_neg hv]
          exact okStatuses_update _ _ h
            (by rw [paymentSave_status]; simp [statusEnum])

theorem payment_ipn_statuses (cfg : Cfg) (db : DB)
    (tran_id : Option String) (is_valid : Bool) (v : VData) (emailOk : Bool)
    (h : okStatuses db.payments) :
    okStatuses (payment_ipn cfg db tran_id is_valid v emailOk).db.payments := by
  cases tran_id with
  | none => exact h
  | some tid =>
    by_cases hvalid : is_valid
    · cases hf : findPaymentByTxid db tid with
      | none => simpa [payment_ipn, hf, hvalid] using h
      | some p =>
        simp only [payment_ipn, hf]
        rw [if_neg (by simp [hvalid])]
        have hmem : p ∈ db.payments := findPaymentByTxid_mem db tid p hf
        by_cases hsucc : p.status = "SUCCESS"
        · rw [if_pos hsucc]
          exact h
        · rw [if_neg hsucc]
          by_cases hamt :
              verify_payment_amount (.num p.amount) v.amount (1/100) = true
          · rw [if_neg (fun hn => hn hamt)]
            split
            · rename_i db2 logs hip
              rcases ipnProcess_payments cfg db p v emailOk db2 logs hip
                  with hsame | ⟨q, hqid, hqtx, hqst, hpay⟩
              · show okStatuses db2.payments
                rw [okStatuses, hsame]
                exact h
              · show okStatuses db2.payments
                rw [okStatuses, hpay]
                refine okStatuses_update _ _ h ?_
                rcases hqst with hqst | hqst
                · exact hqst
                · rw [hqst]
                  exact h p hmem
            · exact h
          · rw [if_pos hamt]
            exact h
    · simpa [payment_ipn, hvalid] using h

theorem student_registration_statuses (cfg : Cfg) (db : DB) (form : RegForm)
    (newTxid : String) (h : okStatuses db.payments) :
    okStatuses (student_registration cfg db form newTxid).1.payments := by
  unfold student_registration
  cases hb : regBody cfg db form newTxid with
  | error e => exact h
  | ok pr =>
    show okStatuses pr.1.payments
    have hb2 : regBody cfg db form newTxid = .ok (pr.1, pr.2) := by rw [hb]
    simp only [regBody] at hb2
    split at hb2
    · cases hb2
    · rename_i db1 student huoc
      obtain ⟨hp1, -, -, -, -, -⟩ :=
        updateOrCreateStudent_frame cfg db form db1 student huoc
      have h1 : okStatuses db1.payments := by rw [okStatuses, hp1]; exact h
      split at hb2
      · injection hb2 with h2
        injection h2 with ha hbb
        subst ha
        exact h1
      · split at hb2
        · cases hb2
        · rename_i db2' payment hcp
          obtain ⟨hdb2, hpay, -⟩ := createPayment_ok cfg db1 _ db2' payment hcp
          have h2 : okStatuses db2'.payments := by
            rw [okStatuses, hdb2]
            intro x hx
            rcases List.mem_append.mp hx with hx1 | hx2
            · exact h1 x hx1
            · simp only [List.mem_singleton] at hx2
              subst hx2
              rw [paymentSave_status]
              simp [statusEnum]
          split at hb2
          · cases hb2
          · rename_i db4 hro
            injection hb2 with h3
            injection h3 with ha hbb
            subst ha
            obtain ⟨hp4, -, -, -⟩ :=
              registerOptionsList_frame form student payment
                form.selectedOptions _ pr.1 hro
            rw [okStatuses, hp4]
            exact okStatuses_update _ _ h2
              (by rw [paymentSave_status, hpay, paymentSave_status]
                  simp [statusEnum])

theorem payment_ipn_unhandled_status (cfg : Cfg) (db : DB) (tid : String)
    (v : VData) (emailOk : Bool) (p : PaymentRow)
    (hf : findPaymentByTxid db tid = some p) (hsucc : p.status ≠ "SUCCESS")
    (hamt : verify_payment_amount (.num p.amount) v.amount (1/100) = true)
    (h1 : v.status ≠ "VALID")
    (h2 : ¬(v.status = "FAILED" ∨ v.status = "CANCELLED" ∨
      v.status = "EXPIRED")) :
    (payment_ipn cfg db (some tid) true v emailOk).db = db := by
  have hip : ipnProcess cfg db p v emailOk =
      .ok (db, ["IPN received with unhandled status"]) := by
    simp only [ipnProcess]
    rw [if_neg h1, if_neg h2]
  simp only [payment_ipn, hf, hip]
  rw [if_neg (by simp), if_neg hsucc, if_neg (fun hn => hn hamt)]

/-- C7: a payment that passes model validation has amount at least 0.01 and a
status/payment-method inside the declared choices; a student passing
validation has a non-negative total; and every modelled operation that sets a
payment status leaves it in
PENDING/SUCCESS/FAILED/CANCELLED/EXPIRED — an IPN whose validated status is
outside the handled set leaves the database unchanged. -/
theorem C7_amounts_and_status_enums :
    (∀ p, paymentPassesValidation p = true → (1 : ℚ)/100 ≤ p.amount) ∧
    (∀ s, studentPassesValidation s = true → (0 : ℚ) ≤ s.totalAmount) ∧
    (∀ cfg p, p.status ∈ statusEnum →
      (paymentSave cfg p).status ∈ statusEnum) ∧
    (∀ cfg p, p.status ∈ statusEnum →
      (markExpired cfg p).status ∈ statusEnum) ∧
    (∀ cfg p, (paymentFailUpdate cfg p).status ∈ statusEnum ∧
      (paymentCancelUpdate cfg p).status ∈ statusEnum ∧
      (paymentTimeoutUpdate cfg p).status ∈ statusEnum ∧
      (checkPaymentStatusUpdate cfg p).status ∈ statusEnum ∧
      (cleanupExpiredUpdate cfg p).status ∈ statusEnum ∧
      (adminVerifyPaymentUpdate cfg p).status ∈ statusEnum) ∧
    (∀ cfg db tran_id is_valid v emailOk, okStatuses db.payments →
      okStatuses
        (payment_success cfg db tran_id is_valid v emailOk).db.payments) ∧
    (∀ cfg db tran_id is_valid v emailOk, okStatuses db.payments →
      okStatuses
        (payment_ipn cfg db tran_id is_valid v emailOk).db.payments) ∧
    (∀ cfg db form newTxid, okStatuses db.payments →
      okStatuses (student_registration cfg db form newTxid).1.payments) ∧
    (∀ cfg db tid v emailOk p, findPaymentByTxid db tid = some p →
      p.status ≠ "SUCCESS" →
      verify_payment_amount (.num p.amount) v.amount (1/100) = true →
      v.status ≠ "VALID" →
      ¬(v.status = "FAILED" ∨ v.status = "CANCELLED" ∨
        v.status = "EXPIRED") →
      (payment_ipn cfg db (some tid) true v emailOk).db = db) := by
  refine ⟨?_, ?_, ?_, ?_, ?_, ?_, ?_, ?_, ?_⟩
  · intro p hp
    simp only [paymentPassesValidation, Bool.and_eq_true,
      decide_eq_true_eq] at hp
    exact hp.1.1
  · intro s hs
    simpa [studentPassesValidation] using hs
  · intro cfg p hp
    rw [paymentSave_status]
    exact hp
  · intro cfg p hp
    rw [markExpired_eq]
    split
    · simp [statusEnum]
    · exact hp
  · intro cfg p
    refine ⟨?_, ?_, ?_, ?_, ?_, ?_⟩ <;>
      simp [paymentFailUpdate, paymentCancelUpdate, paymentTimeoutUpdate,
        checkPaymentStatusUpdate, cleanupExpiredUpdate,
        adminVerifyPaymentUpdate, paymentSave_status, statusEnum]
  · exact fun cfg db t iv v e h =>
      payment_success_statuses cfg db t iv v e h
  · exact fun cfg db t iv v e h => payment_ipn_statuses cfg db t iv v e h
  · exact fun cfg db form tx h =>
      student_registration_statuses cfg db form tx h
  · exact fun cfg db tid v e p hf hs ha h1 h2 =>
      payment_ipn_unhandled_status cfg db tid v e p hf hs ha h1 h2

/-- Witness for C7 at a concrete payment, student and IPN. -/
theorem C7_amounts_and_status_enums_witness :
    ((1 : ℚ)/100 ≤
      (⟨1, 1, "t1", 100, "", "PENDING", "", false, none, none⟩ :
        PaymentRow).amount) ∧
    ((0 : ℚ) ≤
      (⟨1, "a@b.c", "Alice", none, none, "JTC250001", 100, false, false⟩ :
        StudentRow).totalAmount) ∧
    (paymentSave ⟨1000, 15, "25", 3/200⟩
      ⟨1, 1, "t1", 100, "", "PENDING", "", false, none, none⟩).status ∈
        statusEnum ∧
    okStatuses (payment_success ⟨1000, 15, "25", 3/200⟩
      ⟨[], [⟨1, "a@b.c", "Alice", none, none, "JTC250001", 100, false, false⟩],
       [⟨1, 1, "t1", 100, "", "PENDING", "", false, some 2000, none⟩],
       [], [], [], []⟩
      (some "t1") true ⟨"VALID", "0", "v1", "VISA", .num 100⟩
      true).db.payments ∧
    (payment_ipn ⟨1000, 15, "25", 3/200⟩
      ⟨[], [⟨1, "a@b.c", "Alice", none, none, "JTC250001", 100, false, false⟩],
       [⟨1, 1, "t1", 100, "", "PENDING", "", false, some 2000, none⟩],
       [], [], [], []⟩
      (some "t1") true ⟨"PROCESSING", "0", "v1", "VISA", .num 100⟩
      true).db =
      ⟨[], [⟨1, "a@b.c", "Alice", none, none, "JTC250001", 100, false, false⟩],
       [⟨1, 1, "t1", 100, "", "PENDING", "", false, some 2000, none⟩],
       [], [], [], []⟩ := by
  obtain ⟨h1, h2, h3, -, -, h6, -, -, h9⟩ := C7_amounts_and_status_enums
  refine ⟨h1 _ (by norm_num [paymentPassesValidation, statusEnum]),
    h2 _ (by norm_num [studentPassesValidation]),
    h3 _ _ (by simp [statusEnum]),
    h6 _ _ _ _ _ _ (by unfold okStatuses; decide), ?_⟩
  refine h9 _ _ "t1" _ true _ rfl (by decide) ?_ (by decide) (by decide)
  simp only [verify_payment_amount, floatOf, decide_eq_true_eq]
  norm_num

/-! ## Claim C1: idempotency of a second success/IPN delivery -/

/-- C1 as stated is false: for a payment already SUCCESS but without a
receipt row (a state `check_payment_status` can create), the re-delivered
success callback does not return an OK/success response — the bare
`Receipt.objects.get(payment=payment)` raises `Receipt.DoesNotExist`, which
is an uncaught exception (HTTP 500).  The stored state is still unchanged. -/
theorem C1_counterexample :
    ((⟨[], [⟨1, "a@b.c", "Alice", none, none, "JTC250001", 100, false,
        false⟩],
      [⟨1, 1, "t1", 100, "", "SUCCESS", "", false, some 2000, some 900⟩],
      [], [], [], []⟩ : DB).payments.map (fun p => p.status) =
        ["SUCCESS"]) ∧
    (payment_success ⟨1000, 15, "25", 3/200⟩
      ⟨[], [⟨1, "a@b.c", "Alice", none, none, "JTC250001", 100, false,
        false⟩],
       [⟨1, 1, "t1", 100, "", "SUCCESS", "", false, some 2000, some 900⟩],
       [], [], [], []⟩
      (some "t1") true ⟨"VALID", "0", "v1", "VISA", .num 100⟩ true).resp =
        .err "Receipt.DoesNotExist" ∧
    (payment_success ⟨1000, 15, "25", 3/200⟩
      ⟨[], [⟨1, "a@b.c", "Alice", none, none, "JTC250001", 100, false,
        false⟩],
       [⟨1, 1, "t1", 100, "", "SUCCESS", "", false, some 2000, some 900⟩],
       [], [], [], []⟩
      (some "t1") true ⟨"VALID", "0", "v1", "VISA", .num 100⟩ true).resp ≠
        .ok := by
  refine ⟨rfl, rfl, ?_⟩
  intro hcontra
  cases hcontra.symm.trans (rfl :
    (payment_success ⟨1000, 15, "25", 3/200⟩
      ⟨[], [⟨1, "a@b.c", "Alice", none, none, "JTC250001", 100, false,
        false⟩],
       [⟨1, 1, "t1", 100, "", "SUCCESS", "", false, some 2000, some 900⟩],
       [], [], [], []⟩
      (some "t1") true ⟨"VALID", "0", "v1", "VISA", .num 100⟩ true).resp =
        .err "Receipt.DoesNotExist")

/-- C1 (amended): a further delivery for a payment already SUCCESS leaves the
whole database unchanged and re-runs no crediting; `payment_ipn` answers 200
OK whenever the delivery passes validation, and `payment_success` renders the
success page provided a receipt row exists for the payment (without one the
receipt lookup raises instead). -/
theorem C1_idempotent_redelivery (cfg : Cfg) (db : DB) (tid : String)
    (p : PaymentRow) (is_valid : Bool) (v : VData) (emailOk : Bool)
    (hf : findPaymentByTxid db tid = some p) (hs : p.status = "SUCCESS") :
    ((payment_ipn cfg db (some tid) is_valid v emailOk).db = db ∧
     (is_valid = true →
       (payment_ipn cfg db (some tid) is_valid v emailOk).resp = .ok)) ∧
    ((payment_success cfg db (some tid) is_valid v emailOk).db = db ∧
     (∀ r, db.receipts.filter (fun rr => rr.paymentId == p.id) = [r] →
       (payment_success cfg db (some tid) is_valid v emailOk).resp =
         .ok)) := by
  constructor
  · cases is_valid with
    | false => exact ⟨by simp [payment_ipn], by intro hcontra; cases hcontra⟩
    | true =>
      simp only [payment_ipn, hf]
      rw [if_neg (by simp), if_pos hs]
      exact ⟨rfl, fun _ => rfl⟩
  · simp only [payment_success, hf]
    rw [if_pos hs]
    constructor
    · split <;> rfl
    · intro r hr
      simp only [hr]

/-- Witness for C1 (amended): a SUCCESS payment with its receipt; both
handlers leave the database unchanged and answer 200. -/
theorem C1_idempotent_redelivery_witness :
    (payment_ipn ⟨1000, 15, "25", 3/200⟩
      ⟨[], [⟨1, "a@b.c", "Alice", none, none, "JTC250001", 100, true, true⟩],
       [⟨1, 1, "t1", 100, "", "SUCCESS", "", false, some 2000, some 900⟩],
       [⟨1, 1, 1, "JTC2025-0001", true⟩], [], [], []⟩
      (some "t1") true ⟨"VALID", "0", "v1", "VISA", .num 100⟩ true).db =
      ⟨[], [⟨1, "a@b.c", "Alice", none, none, "JTC250001", 100, true, true⟩],
       [⟨1, 1, "t1", 100, "", "SUCCESS", "", false, some 2000, some 900⟩],
       [⟨1, 1, 1, "JTC2025-0001", true⟩], [], [], []⟩ ∧
    (payment_ipn ⟨1000, 15, "25", 3/200⟩
      ⟨[], [⟨1, "a@b.c", "Alice", none, none, "JTC250001", 100, true, true⟩],
       [⟨1, 1, "t1", 100, "", "SUCCESS", "", false, some 2000, some 900⟩],
       [⟨1, 1, 1, "JTC2025-0001", true⟩], [], [], []⟩
      (some "t1") true ⟨"VALID", "0", "v1", "VISA", .num 100⟩ true).resp =
        .ok ∧
    (payment_success ⟨1000, 15, "25", 3/200⟩
      ⟨[], [⟨1, "a@b.c", "Alice", none, none, "JTC250001", 100, true, true⟩],
       [⟨1, 1, "t1", 100, "", "SUCCESS", "", false, some 2000, some 900⟩],
       [⟨1, 1, 1, "JTC2025-0001", true⟩], [], [], []⟩
      (some "t1") true ⟨"VALID", "0", "v1", "VISA", .num 100⟩ true).db =
      ⟨[], [⟨1, "a@b.c", "Alice", none, none, "JTC250001", 100, true, true⟩],
       [⟨1, 1, "t1", 100, "", "SUCCESS", "", false, some 2000, some 900⟩],
       [⟨1, 1, 1, "JTC2025-0001", true⟩], [], [], []⟩ ∧
    (payment_success ⟨1000, 15, "25", 3/200⟩
      ⟨[], [⟨1, "a@b.c", "Alice", none, none, "JTC250001", 100, true, true⟩],
       [⟨1, 1, "t1", 100, "", "SUCCESS", "", false, some 2000, some 900⟩],
       [⟨1, 1, 1, "JTC2025-0001", true⟩], [], [], []⟩
      (some "t1") true ⟨"VALID", "0", "v1", "VISA", .num 100⟩ true).resp =
        .ok := by
  obtain ⟨⟨hi1, hi2⟩, ⟨hs1, hs2⟩⟩ := C1_idempotent_redelivery
    ⟨1000, 15, "25", 3/200⟩
    ⟨[], [⟨1, "a@b.c", "Alice", none, none, "JTC250001", 100, true, true⟩],
     [⟨1, 1, "t1", 100, "", "SUCCESS", "", false, some 2000, some 900⟩],
     [⟨1, 1, 1, "JTC2025-0001", true⟩], [], [], []⟩
    "t1" ⟨1, 1, "t1", 100, "", "SUCCESS", "", false, some 2000, some 900⟩
    true ⟨"VALID", "0", "v1", "VISA", .num 100⟩ true rfl rfl
  exact ⟨hi1, hi2 rfl, hs1, hs2 ⟨1, 1, 1, "JTC2025-0001", true⟩ (by decide)⟩

/-! ## Claim C4: failed validation yields a 400 and never credits -/

theorem noNewSuccess_refl (l : List PaymentRow) : noNewSuccess l l :=
  fun _ p2 hget hst => ⟨p2, hget, hst⟩

theorem noNewSuccess_update_non_success (l : List PaymentRow)
    (q : PaymentRow) (hq : q.status ≠ "SUCCESS") :
    noNewSuccess l (l.map (fun x => if x.id = q.id then q else x)) := by
  intro i p2 hget hst
  rw [List.get?_eq_getElem?, List.getElem?_map] at hget
  cases hl : l[i]? with
  | none => rw [hl] at hget; cases hget
  | some p1 =>
    rw [hl] at hget
    simp only [Option.map_some', Option.some.injEq] at hget
    subst hget
    refine ⟨p1, by rw [List.get?_eq_getElem?, hl], ?_⟩
    split at hst
    · exact absurd hst hq
    · exact hst

/-- C4 as stated is false in one corner: `payment_success` answers a bare
`HttpResponseBadRequest` for a POST without a transaction ID but, unlike
every other failure branch, logs nothing (views.py lines 443-444 have no
`logger` call). -/
theorem C4_counterexample :
    (payment_success ⟨1000, 15, "25", 3/200⟩
      ⟨[], [⟨1, "a@b.c", "Alice", none, none, "JTC250001", 100, false,
        false⟩],
       [⟨1, 1, "t1", 100, "", "PENDING", "", false, some 2000, none⟩],
       [], [], [], []⟩
      none true ⟨"VALID", "0", "v1", "VISA", .num 100⟩ true).resp =
        .bad "Invalid request: Missing transaction ID." ∧
    (payment_success ⟨1000, 15, "25", 3/200⟩
      ⟨[], [⟨1, "a@b.c", "Alice", none, none, "JTC250001", 100, false,
        false⟩],
       [⟨1, 1, "t1", 100, "", "PENDING", "", false, some 2000, none⟩],
       [], [], [], []⟩
      none true ⟨"VALID", "0", "v1", "VISA", .num 100⟩ true).logs = [] :=
  ⟨rfl, rfl⟩

/-- C4 (amended): every failing gateway callback or IPN — missing
transaction ID, validation rejection, unknown transaction, or amount
mismatch — receives an `HttpResponseBadRequest` (400) and never marks a
payment SUCCESS; each such failure is logged except `payment_success`'s
missing-transaction-ID branch, which returns 400 silently. -/
theorem C4_failed_validation_400 (cfg : Cfg) (db : DB) (tid : String)
    (is_valid : Bool) (v : VData) (emailOk : Bool) :
    (is400 (payment_success cfg db none is_valid v emailOk).resp ∧
      (payment_success cfg db none is_valid v emailOk).db = db) ∧
    (findPaymentByTxid db tid = none →
      is400 (payment_success cfg db (some tid) is_valid v emailOk).resp ∧
      (payment_success cfg db (some tid) is_valid v emailOk).logs ≠ [] ∧
      (payment_success cfg db (some tid) is_valid v emailOk).db = db) ∧
    (∀ p, findPaymentByTxid db tid = some p → p.status ≠ "SUCCESS" →
      ¬(is_valid = true ∧ (v.status = "VALID" ∨ v.status = "VALIDATED")) →
      is400 (payment_success cfg db (some tid) is_valid v emailOk).resp ∧
      (payment_success cfg db (some tid) is_valid v emailOk).logs ≠ [] ∧
      noNewSuccess db.payments
        (payment_success cfg db (some tid) is_valid v emailOk).db.payments) ∧
    (∀ p amt, findPaymentByTxid db tid = some p → p.status ≠ "SUCCESS" →
      is_valid = true → (v.status = "VALID" ∨ v.status = "VALIDATED") →
      decimalOf v.amount = some amt → p.amount ≠ amt →
      is400 (payment_success cfg db (some tid) is_valid v emailOk).resp ∧
      (payment_success cfg db (some tid) is_valid v emailOk).logs ≠ [] ∧
      noNewSuccess db.payments
        (payment_success cfg db (some tid) is_valid v emailOk).db.payments) ∧
    (is400 (payment_ipn cfg db none is_valid v emailOk).resp ∧
      (payment_ipn cfg db none is_valid v emailOk).logs ≠ [] ∧
      (payment_ipn cfg db none is_valid v emailOk).db = db) ∧
    (is_valid = false →
      is400 (payment_ipn cfg db (some tid) is_valid v emailOk).resp ∧
      (payment_ipn cfg db (some tid) is_valid v emailOk).logs ≠ [] ∧
      (payment_ipn cfg db (some tid) is_valid v emailOk).db = db) ∧
    (is_valid = true → findPaymentByTxid db tid = none →
      is400 (payment_ipn cfg db (some tid) is_valid v emailOk).resp ∧
      (payment_ipn cfg db (some tid) is_valid v emailOk).logs ≠ [] ∧
      (payment_ipn cfg db (some tid) is_valid v emailOk).db = db) ∧
    (∀ p, is_valid = true → findPaymentByTxid db tid = some p →
      p.status ≠ "SUCCESS" →
      verify_payment_amount (.num p.amount) v.amount (1/100) = false →
      is400 (payment_ipn cfg db (some tid) is_valid v emailOk).resp ∧
      (payment_ipn cfg db (some tid) is_valid v emailOk).logs ≠ [] ∧
      (payment_ipn cfg db (some tid) is_valid v emailOk).db = db) := by
  refine ⟨⟨⟨_, rfl⟩, rfl⟩, ?_, ?_, ?_, ?_, ?_, ?_, ?_⟩
  · intro hf
    simp only [payment_success, hf]
    exact ⟨⟨_, rfl⟩, by simp, by trivial⟩
  · intro p hf hs hv
    simp only [payment_success, hf]
    rw [if_neg hs, if_neg hv]
    exact ⟨⟨_, rfl⟩, by simp, noNewSuccess_update_non_success _ _
      (by rw [paymentSave_status]; simp)⟩
  · intro p amt hf hs hiv hvs hd hne
    simp only [payment_success, hf]
    rw [if_neg hs, if_pos ⟨hiv, hvs⟩]
    simp only [hd]
    rw [if_neg hne]
    exact ⟨⟨_, rfl⟩, by simp, noNewSuccess_update_non_success _ _
      (by rw [paymentSave_status]; simp)⟩
  · exact ⟨⟨_, rfl⟩, by simp [payment_ipn], rfl⟩
  · intro hiv
    subst hiv
    simp only [payment_ipn]
    rw [if_pos (by simp)]
    exact ⟨⟨_, rfl⟩, by simp, by trivial⟩
  · intro hiv hf
    subst hiv
    simp only [payment_ipn, hf]
    rw [if_neg (by simp)]
    exact ⟨⟨_, rfl⟩, by simp, by trivial⟩
  · intro p hiv hf hs hamt
    subst hiv
    simp only [payment_ipn, hf]
    rw [if_neg (by simp), if_neg hs,
      if_pos (by intro hc; rw [hamt] at hc; cases hc)]
    exact ⟨⟨_, rfl⟩, by simp, by trivial⟩

/-- Witness for C4: four concrete failing requests, all answered 400 with no
payment newly marked SUCCESS. -/
theorem C4_failed_validation_400_witness :
    (is400 (payment_success ⟨1000, 15, "25", 3/200⟩
      ⟨[], [⟨1, "a@b.c", "Alice", none, none, "JTC250001", 100, false,
        false⟩],
       [⟨1, 1, "t1", 100, "", "PENDING", "", false, some 2000, none⟩],
       [], [], [], []⟩
      none true ⟨"VALID", "0", "v1", "VISA", .num 100⟩ true).resp) ∧
    (is400 (payment_success ⟨1000, 15, "25", 3/200⟩
      ⟨[], [⟨1, "a@b.c", "Alice", none, none, "JTC250001", 100, false,
        false⟩],
       [⟨1, 1, "t1", 100, "", "PENDING", "", false, some 2000, none⟩],
       [], [], [], []⟩
      (some "missing") true ⟨"VALID", "0", "v1", "VISA", .num 100⟩
      true).resp) ∧
    (is400 (payment_success ⟨1000, 15, "25", 3/200⟩
      ⟨[], [⟨1, "a@b.c", "Alice", none, none, "JTC250001", 100, false,
        false⟩],
       [⟨1, 1, "t1", 100, "", "PENDING", "", false, some 2000, none⟩],
       [], [], [], []⟩
      (some "t1") false ⟨"INVALID", "0", "v1", "VISA", .num 100⟩
      true).resp ∧
     noNewSuccess
      [⟨1, 1, "t1", 100, "", "PENDING", "", false, some 2000, none⟩]
      (payment_success ⟨1000, 15, "25", 3/200⟩
        ⟨[], [⟨1, "a@b.c", "Alice", none, none, "JTC250001", 100, false,
          false⟩],
         [⟨1, 1, "t1", 100, "", "PENDING", "", false, some 2000, none⟩],
         [], [], [], []⟩
        (some "t1") false ⟨"INVALID", "0", "v1", "VISA", .num 100⟩
        true).db.payments) ∧
    (is400 (payment_ipn ⟨1000, 15, "25", 3/200⟩
      ⟨[], [⟨1, "a@b.c", "Alice", none, none, "JTC250001", 100, false,
        false⟩],
       [⟨1, 1, "t1", 100, "", "PENDING", "", false, some 2000, none⟩],
       [], [], [], []⟩
      (some "t1") true ⟨"VALID", "0", "v1", "VISA", .missing⟩ true).resp ∧
     (payment_ipn ⟨1000, 15, "25", 3/200⟩
      ⟨[], [⟨1, "a@b.c", "Alice", none, none, "JTC250001", 100, false,
        false⟩],
       [⟨1, 1, "t1", 100, "", "PENDING", "", false, some 2000, none⟩],
       [], [], [], []⟩
      (some "t1") true ⟨"VALID", "0", "v1", "VISA", .missing⟩ true).db =
      ⟨[], [⟨1, "a@b.c", "Alice", none, none, "JTC250001", 100, false,
        false⟩],
       [⟨1, 1, "t1", 100, "", "PENDING", "", false, some 2000, none⟩],
       [], [], [], []⟩) := by
  obtain ⟨h1, h2, h3, -, -, -, -, h8⟩ := C4_failed_validation_400
    ⟨1000, 15, "25", 3/200⟩
    ⟨[], [⟨1, "a@b.c", "Alice", none, none, "JTC250001", 100, false, false⟩],
     [⟨1, 1, "t1", 100, "", "PENDING", "", false, some 2000, none⟩],
     [], [], [], []⟩
    "t1" false ⟨"INVALID", "0", "v1", "VISA", .num 100⟩ true
  obtain ⟨h1b, h2b, h3b, -, -, -, -, h8b⟩ := C4_failed_validation_400
    ⟨1000, 15, "25", 3/200⟩
    ⟨[], [⟨1, "a@b.c", "Alice", none, none, "JTC250001", 100, false, false⟩],
     [⟨1, 1, "t1", 100, "", "PENDING", "", false, some 2000, none⟩],
     [], [], [], []⟩
    "t1" true ⟨"VALID", "0", "v1", "VISA", .missing⟩ true
  obtain ⟨-, h2c, -, -, -, -, -, -⟩ := C4_failed_validation_400
    ⟨1000, 15, "25", 3/200⟩
    ⟨[], [⟨1, "a@b.c", "Alice", none, none, "JTC250001", 100, false, false⟩],
     [⟨1, 1, "t1", 100, "", "PENDING", "", false, some 2000, none⟩],
     [], [], [], []⟩
    "missing" true ⟨"VALID", "0", "v1", "VISA", .num 100⟩ true
  have hmode3 := h3
    ⟨1, 1, "t1", 100, "", "PENDING", "", false, some 2000, none⟩
    rfl (by decide) (by rintro ⟨hc, -⟩; cases hc)
  have hmode4 := h8b
    ⟨1, 1, "t1", 100, "", "PENDING", "", false, some 2000, none⟩
    rfl rfl (by decide) rfl
  exact ⟨h1.1, (h2c rfl).1, ⟨hmode3.1, hmode3.2.2⟩,
    ⟨hmode4.1, hmode4.2.2⟩⟩

/-! ## Claim C2: what a successfully validated callback actually writes -/

theorem studentRow_group_self (s : StudentRow) :
    ({ s with group := s.group } : StudentRow) = s := by
  cases s
  rfl

/-- `Student.save` on a student already stored consistently (non-empty
registration id, group matching the grade) writes back exactly the row it was
given. -/
theorem studentSave_noop (cfg : Cfg) (grades : List Grade)
    (students : List StudentRow) (s : StudentRow)
    (hreg : s.registrationId ≠ "")
    (hgrp : match s.gradeId with
      | some gid => s.group = calculate_group_from_grade_id grades gid
      | none => True) :
    studentSave cfg grades students s = .ok s := by
  have hs1 : studentSaveGroup grades s = s := by
    obtain ⟨sid, semail, sname, sgradeId, sgroup, sreg, stot, spaid, sver⟩ := s
    unfold studentSaveGroup
    cases sgradeId with
    | none => rfl
    | some gid =>
      have hgrp2 : sgroup = calculate_group_from_grade_id grades gid := hgrp
      rw [hgrp2]
  simp only [studentSave, hs1]
  rw [if_neg hreg]

/-- `Receipt.save` on a well-formed table always succeeds and appends one
numbered copy of the new row. -/
theorem receiptSave_ok_of_WF (receipts : List ReceiptRow) (r : ReceiptRow)
    (hwf : receiptsWF receipts) (hempty : r.receiptNumber = "") :
    ∃ r2, receiptSave receipts r = .ok (receipts ++ [r2], r2) ∧
      r2.studentId = r.studentId ∧ r2.paymentId = r.paymentId ∧
      r2.id = r.id ∧ r2.emailSent = r.emailSent := by
  cases hl : receipts.getLast? with
  | none =>
    have hnil := List.getLast?_eq_none_iff.mp hl
    subst hnil
    exact ⟨{ r with receiptNumber := "JTC2025-0001" },
      by simp [receiptSave, hempty], rfl, rfl, rfl, rfl⟩
  | some last =>
    obtain ⟨n, hn⟩ := receiptsWF_getLast_suffix receipts hwf last hl
    exact ⟨{ r with receiptNumber := "JTC2025-" ++ String.mk (pad4 (n+1)) },
      by simp only [receiptSave, if_pos hempty, hl, hn], rfl, rfl, rfl, rfl⟩

theorem createReceipt_ok_of_WF (db : DB) (sid pid : Nat)
    (hwf : receiptsWF db.receipts) :
    ∃ db3 r2, createReceipt db sid pid = .ok (db3, r2) ∧
      db3 = { db with receipts := db.receipts ++ [r2] } ∧
      r2.studentId = sid ∧ r2.paymentId = pid ∧
      r2.id = nextId (db.receipts.map (fun r => r.id)) ∧
      r2.emailSent = false := by
  obtain ⟨r2, hsave, hsid, hpid, hid, hmail⟩ := receiptSave_ok_of_WF
    db.receipts
    ⟨nextId (db.receipts.map (fun r => r.id)), sid, pid, "", false⟩ hwf rfl
  refine ⟨{ db with receipts := db.receipts ++ [r2] }, r2, ?_, rfl,
    hsid, hpid, hid, hmail⟩
  unfold createReceipt
  rw [hsave]

theorem receipts_update_append_fresh (l : List ReceiptRow)
    (r r2 : ReceiptRow) (hid : r2.id = r.id)
    (hfresh : ∀ x ∈ l, x.id ≠ r.id) :
    (l ++ [r]).map (fun t => if t.id = r2.id then r2 else t) = l ++ [r2] := by
  rw [List.map_append]
  congr 1
  · have hcongr : ∀ x ∈ l, (if x.id = r2.id then r2 else x) = id x := by
      intro x hx
      rw [if_neg (fun hc => hfresh x hx (hid ▸ hc))]
      rfl
    rw [List.map_congr_left hcongr, List.map_id]
  · simp [hid]

theorem creditPaymentOnSuccess_ok (cfg : Cfg) (db : DB) (p : PaymentRow)
    (v : VData) (emailOk : Bool) (st : StudentRow)
    (hst : findStudentById db p.studentId = some st)
    (hcon : studentConsistent db.grades st)
    (hwf : receiptsWF db.receipts) :
    ∃ db2 newR, creditPaymentOnSuccess cfg db p v emailOk = .ok db2 ∧
      db2.payments = (updatePayment db (paymentSave cfg
        { p with
          status := "SUCCESS", paymentMethod := v.cardType,
          gatewayTxnid := v.valId, hasGatewayResponse := true,
          completedAt := some cfg.now })).payments ∧
      db2.students = db.students.map (fun t =>
        if t.id = st.id then
          { st with isPaid := true, paymentVerified := true } else t) ∧
      db2.receipts = db.receipts ++ [newR] ∧
      newR.studentId = st.id ∧ newR.paymentId = p.id ∧
      db2.registrations = db.registrations ∧ db2.teams = db.teams ∧
      db2.teamMembers = db.teamMembers ∧ db2.grades = db.grades := by
  simp only [creditPaymentOnSuccess]
  generalize hP2 : paymentSave cfg
    { p with
      status := "SUCCESS", paymentMethod := v.cardType,
      gatewayTxnid := v.valId, hasGatewayResponse := true,
      completedAt := some cfg.now } = p2
  simp only [show findStudentById (updatePayment db p2) p.studentId =
    some st from hst]
  simp only [show studentSave cfg (updatePayment db p2).grades
      (updatePayment db p2).students
      { st with isPaid := true, paymentVerified := true } =
      .ok { st with isPaid := true, paymentVerified := true } from
    studentSave_noop cfg _ _ _ hcon.1 hcon.2]
  obtain ⟨db3, r2, hcr, hdb3, hsid, hpid, hid, hmail⟩ :=
    createReceipt_ok_of_WF
      (updateStudent (updatePayment db p2)
        { st with isPaid := true, paymentVerified := true })
      ({ st with isPaid := true, paymentVerified := true } : StudentRow).id
      p2.id hwf
  simp only [hcr]
  have hp2id : p2.id = p.id := by rw [← hP2, paymentSave_id]
  cases emailOk with
  | false =>
    rw [if_neg (by simp)]
    refine ⟨db3, r2, rfl, ?_, ?_, ?_, hsid, by rw [hpid, hp2id], ?_, ?_, ?_,
      ?_⟩ <;> rw [hdb3] <;> rfl
  | true =>
    rw [if_pos rfl]
    refine ⟨updateReceipt db3 { r2 with emailSent := true },
      { r2 with emailSent := true }, rfl, ?_, ?_, ?_, hsid,
      by rw [hpid, hp2id], ?_, ?_, ?_, ?_⟩ <;> rw [hdb3] <;> try rfl
    show (db.receipts ++ [r2]).map _ = _
    refine receipts_update_append_fresh db.receipts r2 _ rfl ?_
    intro x hx
    rw [hid]
    exact nextId_fresh _ _ (List.mem_map_of_mem _ hx)

/-- `ipnProcess` never touches event registrations, teams, team members or
grades: every branch only rewrites payments, students or receipts. -/
theorem ipnProcess_regs_frame (cfg : Cfg) (db : DB) (p : PaymentRow)
    (v : VData) (emailOk : Bool) (db2 : DB) (logs : List String)
    (h : ipnProcess cfg db p v emailOk = .ok (db2, logs)) :
    db2.registrations = db.registrations ∧ db2.teams = db.teams ∧
      db2.teamMembers = db.teamMembers ∧ db2.grades = db.grades := by
  simp only [ipnProcess] at h
  split at h
  · split at h
    · split at h
      · cases h
      · split at h
        · cases h
        · split at h
          · cases h
          · rename_i db3 receipt created hgc
            obtain ⟨-, -, hreg, ht, htm, hg⟩ :=
              getOrCreateReceipt_frame _ _ _ db3 receipt created hgc
            split at h <;>
            · injection h with h1
              injection h1 with ha hb
              subst ha
              exact ⟨hreg, ht, htm, hg⟩
    · injection h with h1
      injection h1 with ha hb
      subst ha
      exact ⟨rfl, rfl, rfl, rfl⟩
  · split at h
    · injection h with h1
      injection h1 with ha hb
      subst ha
      exact ⟨rfl, rfl, rfl, rfl⟩
    · injection h with h1
      injection h1 with ha hb
      subst ha
      exact ⟨rfl, rfl, rfl, rfl⟩

/-- `payment_ipn` never touches event registrations, teams, team members or
grades, whatever the request. -/
theorem payment_ipn_regs_frame (cfg : Cfg) (db : DB) (tr : Option String)
    (iv : Bool) (v : VData) (emailOk : Bool) :
    (payment_ipn cfg db tr iv v emailOk).db.registrations =
        db.registrations ∧
      (payment_ipn cfg db tr iv v emailOk).db.teams = db.teams ∧
      (payment_ipn cfg db tr iv v emailOk).db.teamMembers = db.teamMembers ∧
      (payment_ipn cfg db tr iv v emailOk).db.grades = db.grades := by
  unfold payment_ipn
  split
  · exact ⟨rfl, rfl, rfl, rfl⟩
  · split
    · exact ⟨rfl, rfl, rfl, rfl⟩
    · split
      · exact ⟨rfl, rfl, rfl, rfl⟩
      · split
        · exact ⟨rfl, rfl, rfl, rfl⟩
        · split
          · exact ⟨rfl, rfl, rfl, rfl⟩
          · split
            · rename_i db2 logs hipn
              exact ipnProcess_regs_frame _ _ _ _ _ db2 logs hipn
            · exact ⟨rfl, rfl, rfl, rfl⟩

/-! ## Claim C2: what a validated success callback updates -/

/-- C2 as stated is false: a success callback for a pending payment that
validates (status VALID, matching amount) does not update only the payment
row — the handler also flips the student's `is_paid`/`payment_verified`
flags and creates a receipt row. -/
theorem C2_counterexample :
    ((payment_success ⟨1000, 15, "25", 3/200⟩
      ⟨[], [⟨1, "a@b.c", "Alice", none, none, "JTC250001", 100, false,
        false⟩],
       [⟨1, 1, "t1", 100, "", "PENDING", "", false, some 2000, none⟩],
       [], [], [], []⟩
      (some "t1") true ⟨"VALID", "0", "v1", "VISA", .num 100⟩ false).resp =
        .ok) ∧
    (payment_success ⟨1000, 15, "25", 3/200⟩
      ⟨[], [⟨1, "a@b.c", "Alice", none, none, "JTC250001", 100, false,
        false⟩],
       [⟨1, 1, "t1", 100, "", "PENDING", "", false, some 2000, none⟩],
       [], [], [], []⟩
      (some "t1") true ⟨"VALID", "0", "v1", "VISA", .num 100⟩
        false).db.students ≠
      [⟨1, "a@b.c", "Alice", none, none, "JTC250001", 100, false, false⟩] ∧
    (payment_success ⟨1000, 15, "25", 3/200⟩
      ⟨[], [⟨1, "a@b.c", "Alice", none, none, "JTC250001", 100, false,
        false⟩],
       [⟨1, 1, "t1", 100, "", "PENDING", "", false, some 2000, none⟩],
       [], [], [], []⟩
      (some "t1") true ⟨"VALID", "0", "v1", "VISA", .num 100⟩
        false).db.receipts ≠ ([] : List ReceiptRow) := by
  decide

/-- C2 (amended): on a validated success callback for a pending payment the
handler updates the payment row AND sets the student's
`is_paid`/`payment_verified` flags AND creates one receipt row; the event
registrations, teams, team members and grades are untouched — by this
callback as well as by every IPN delivery. -/
theorem C2_success_callback_updates (cfg : Cfg) (db : DB) (tid : String)
    (payment : PaymentRow) (v : VData) (emailOk : Bool) (st : StudentRow)
    (hf : findPaymentByTxid db tid = some payment)
    (hns : ¬ payment.status = "SUCCESS")
    (hvs : v.status = "VALID" ∨ v.status = "VALIDATED")
    (hamt : decimalOf v.amount = some payment.amount)
    (hst : findStudentById db payment.studentId = some st)
    (hcon : studentConsistent db.grades st)
    (hwf : receiptsWF db.receipts) :
    (∃ db2 newR,
      payment_success cfg db (some tid) true v emailOk = ⟨db2, .ok, []⟩ ∧
      db2.payments = (updatePayment db (paymentSave cfg { payment with
        status := "SUCCESS", paymentMethod := v.cardType,
        gatewayTxnid := v.valId, hasGatewayResponse := true,
        completedAt := some cfg.now })).payments ∧
      db2.students = db.students.map (fun t =>
        if t.id = st.id then
          { st with isPaid := true, paymentVerified := true } else t) ∧
      db2.receipts = db.receipts ++ [newR] ∧
      newR.studentId = st.id ∧ newR.paymentId = payment.id ∧
      db2.registrations = db.registrations ∧ db2.teams = db.teams ∧
      db2.teamMembers = db.teamMembers ∧ db2.grades = db.grades) ∧
    (∀ db' tr iv v' e',
      (payment_ipn cfg db' tr iv v' e').db.registrations =
          db'.registrations ∧
        (payment_ipn cfg db' tr iv v' e').db.teams = db'.teams ∧
        (payment_ipn cfg db' tr iv v' e').db.teamMembers =
          db'.teamMembers ∧
        (payment_ipn cfg db' tr iv v' e').db.grades = db'.grades) := by
  constructor
  · obtain ⟨db2, newR, hcr, hpay, hstu, hrec, hsid, hpid, hreg, ht, htm,
      hg⟩ := creditPaymentOnSuccess_ok cfg db payment v emailOk st hst
        hcon hwf
    refine ⟨db2, newR, ?_, hpay, hstu, hrec, hsid, hpid, hreg, ht, htm, hg⟩
    simp only [payment_success, hf]
    rw [if_neg hns, if_pos ⟨trivial, hvs⟩]
    simp only [hamt]
    rw [if_pos trivial]
    simp only [hcr]
  · exact fun db' tr iv v' e' => payment_ipn_regs_frame cfg db' tr iv v' e'

/-- Witness for C2 (amended) at a concrete pending payment with a matching
validated callback. -/
theorem C2_success_callback_updates_witness :
    ∃ db2 newR,
      payment_success ⟨1000, 15, "25", 3/200⟩
        ⟨[], [⟨1, "a@b.c", "Alice", none, none, "JTC250001", 100, false,
          false⟩],
         [⟨1, 1, "t1", 100, "", "PENDING", "", false, some 2000, none⟩],
         [], [], [], []⟩
        (some "t1") true ⟨"VALID", "0", "v1", "VISA", .num 100⟩ true =
          ⟨db2, .ok, []⟩ ∧
      db2.students = [⟨1, "a@b.c", "Alice", none, none, "JTC250001", 100,
        false, false⟩].map (fun t =>
          if t.id = 1 then
            ⟨1, "a@b.c", "Alice", none, none, "JTC250001", 100, true, true⟩
          else t) ∧
      db2.receipts = [newR] ∧ newR.studentId = 1 ∧ newR.paymentId = 1 ∧
      db2.registrations = [] := by
  obtain ⟨⟨db2, newR, h1, hpay, hstu, hrec, hsid, hpid, hreg, -, -, -⟩, -⟩ :=
    C2_success_callback_updates ⟨1000, 15, "25", 3/200⟩
      ⟨[], [⟨1, "a@b.c", "Alice", none, none, "JTC250001", 100, false,
        false⟩],
       [⟨1, 1, "t1", 100, "", "PENDING", "", false, some 2000, none⟩],
       [], [], [], []⟩
      "t1" ⟨1, 1, "t1", 100, "", "PENDING", "", false, some 2000, none⟩
      ⟨"VALID", "0", "v1", "VISA", .num 100⟩ true
      ⟨1, "a@b.c", "Alice", none, none, "JTC250001", 100, false, false⟩
      rfl (by decide) (Or.inl rfl) rfl rfl ⟨by decide, trivial⟩
      receiptsWF_nil
  exact ⟨db2, newR, h1, hstu, hrec, hsid, hpid, hreg⟩

/-! ## Claim C6: atomic registration with per-view error conversion -/

/-- If some selected option is a TEAM event whose posted team name trims to
the empty string, the option-registration loop raises (`ValueError` or an
earlier `IntegrityError`) — it never completes normally. -/
theorem registerOptionsList_error_of_team_empty (form : RegForm)
    (student : StudentRow) (payment : PaymentRow) :
    ∀ (opts : List EventOptionRow) (db : DB),
      (∃ o ∈ opts, o.eventType = "TEAM" ∧
        (postGet form.teamNames o.id "").trim = "") →
      ∃ e, registerOptionsList form student payment db opts = .error e := by
  intro opts
  induction opts with
  | nil =>
    rintro db ⟨o, ho, -⟩
    cases ho
  | cons o rest ih =>
    rintro db ⟨o', ho', hteam, hname⟩
    cases hcr : createRegistration db student.id o.id payment.id with
    | error e =>
      exact ⟨e, by simp only [registerOptionsList, hcr]⟩
    | ok pr =>
      obtain ⟨db1, reg⟩ := pr
      rcases List.mem_cons.mp ho' with rfl | hrest
      · refine ⟨"ValueError: Team name is required for " ++ o'.eventName, ?_⟩
        simp only [registerOptionsList, hcr]
        rw [if_pos hteam]
        simp only [handleTeamOption]
        rw [if_pos hname]
      · by_cases hty : o.eventType = "TEAM"
        · cases hht : handleTeamOption form student o db1 reg.id with
          | error e =>
            refine ⟨e, ?_⟩
            simp only [registerOptionsList, hcr]
            rw [if_pos hty]
            simp only [hht]
          | ok db2 =>
            obtain ⟨e, he⟩ := ih db2 ⟨o', hrest, hteam, hname⟩
            refine ⟨e, ?_⟩
            simp only [registerOptionsList, hcr]
            rw [if_pos hty]
            simp only [hht]
            exact he
        · obtain ⟨e, he⟩ := ih db1 ⟨o', hrest, hteam, hname⟩
          refine ⟨e, ?_⟩
          simp only [registerOptionsList, hcr]
          rw [if_neg hty]
          exact he

/-- C6: registration handling is atomic with per-view error conversion — if
a selected TEAM option has a blank posted team name (and the order total is
positive, so the flow reaches the option loop), the atomic block raises, the
returned database is exactly the original one (no student, payment,
registration, team or team-member row persists), and the view renders the
registration page with a user-facing error message instead of propagating
the exception. -/
theorem C6_registration_rollback (cfg : Cfg) (db : DB) (form : RegForm)
    (newTxid : String)
    (hteam : ∃ o ∈ form.selectedOptions, o.eventType = "TEAM" ∧
      (postGet form.teamNames o.id "").trim = "")
    (htot : 0 < (form.selectedOptions.map (fun o => o.fee)).sum +
      quantizeCents ((form.selectedOptions.map (fun o => o.fee)).sum *
        cfg.feePct)) :
    ∃ e, student_registration cfg db form newTxid =
      (db, .renderRegisterError ("An unexpected error occurred: " ++ e)) := by
  have hbody : ∀ res, regBody cfg db form newTxid = res →
      ∃ e, res = .error e := by
    intro res hres
    simp only [regBody] at hres
    split at hres
    · rename_i e heq
      exact ⟨e, hres.symm⟩
    · rename_i db1 student huoc
      rw [if_neg (not_le.mpr htot)] at hres
      split at hres
      · rename_i e heq
        exact ⟨e, hres.symm⟩
      · rename_i db2 payment hcp
        split at hres
        · rename_i e heq
          exact ⟨e, hres.symm⟩
        · rename_i db4 hrol
          obtain ⟨e, he⟩ := registerOptionsList_error_of_team_empty form
            student payment form.selectedOptions
            (updatePayment db2 (paymentSave cfg payment)) hteam
          rw [he] at hrol
          cases hrol
  obtain ⟨e, he⟩ := hbody (regBody cfg db form newTxid) rfl
  refine ⟨e, ?_⟩
  simp only [student_registration, he]

/-- Witness for C6: a registration selecting one TEAM option with a blank
team name rolls back completely on an empty database. -/
theorem C6_registration_rollback_witness :
    ∃ e, student_registration ⟨1000, 15, "25", 0⟩
      ⟨[], [], [], [], [], [], []⟩
      ⟨"a@b.c", "Alice", none, [⟨1, "Chess", "TEAM", 100, some 3⟩], [], [],
        []⟩ "JTC2025-000001AAAAAAAA" =
      (⟨[], [], [], [], [], [], []⟩,
        .renderRegisterError ("An unexpected error occurred: " ++ e)) := by
  refine C6_registration_rollback ⟨1000, 15, "25", 0⟩
    ⟨[], [], [], [], [], [], []⟩
    ⟨"a@b.c", "Alice", none, [⟨1, "Chess", "TEAM", 100, some 3⟩], [], [], []⟩
    "JTC2025-000001AAAAAAAA"
    ⟨⟨1, "Chess", "TEAM", 100, some 3⟩, by simp, rfl, by
      simp [postGet, String.trim, Substring.trim, Substring.trimLeft,
        Substring.trimRight, Substring.takeWhileAux,
        Substring.takeRightWhileAux, String.toSubstring, Substring.toString,
        String.extract]⟩ ?_
  norm_num [quantizeCents, roundHalfEven]

end JTC
